import Mathlib

/-!
# Nested SDL input bridge (src/sdlwindow.cpp)

A shallow embedding of the event loop `inputSDLThreadRun` and of the producer
entry points (`sdlwindow_title`, `sdlwindow_cursor`, ...) of
`src/sdlwindow.cpp`.

* The globals and the loop's locals that survive an iteration are the fields
  of `State`.
* One iteration of `while ( SDL_WaitEvent( &event ) )` is the function
  `inputSDLThreadRun_body`: it maps a state and an event to the next state and
  the list of calls made to the collaborators (the compositor input server
  `wlserver_*`, the host toolkit `SDL_*`, the renderer), in program order.
* `std::shared_ptr` values are addresses (`none` is the null pointer); they are
  compared by address, as `operator!=` does, and read through the pointee maps
  of `Platform`.
* `int` arithmetic that can leave the 32-bit range is wrapped with `wrap32`;
  `uint32_t` arithmetic is taken modulo `2^32`.
* `float` arithmetic is a parameter: the conversion from `int` and the division
  are fields of `Platform`, so the general statements hold for each arithmetic;
  `Binary32` is the arithmetic of the target, used where a value is computed.
* The start-up part of `inputSDLThreadRun` (lines 178-247) is not part of the
  embedding: the statements hold for every state the loop can be in.
-/

namespace Gamescope

/-! ## Constants of the headers the file includes -/

/-! Key and button codes of linux/input-event-codes.h. -/

def KEY_RESERVED : Nat := 0
def KEY_Y : Nat := 21
def KEY_U : Nat := 22
def KEY_I : Nat := 23
def KEY_O : Nat := 24
def KEY_S : Nat := 31
def KEY_F : Nat := 33
def KEY_G : Nat := 34
def KEY_B : Nat := 48
def KEY_N : Nat := 49
def BTN_LEFT : Int := 0x110
def BTN_RIGHT : Int := 0x111
def BTN_MIDDLE : Int := 0x112
def BTN_SIDE : Int := 0x113
def BTN_EXTRA : Int := 0x114

/-! Values of SDL_mouse.h, SDL_events.h, SDL_keycode.h and SDL_video.h. -/

def SDL_BUTTON_LEFT : Nat := 1
def SDL_BUTTON_MIDDLE : Nat := 2
def SDL_BUTTON_RIGHT : Nat := 3
def SDL_BUTTON_X1 : Nat := 4
def SDL_BUTTON_X2 : Nat := 5
def SDL_PRESSED : Nat := 1
def KMOD_LGUI : Nat := 0x0400
def SDL_WINDOW_FULLSCREEN_DESKTOP : Nat := 0x1001

def INT32_MAX : Int := 2147483647

def DEFAULT_TITLE : String := "gamescope"

/-- Two's complement wrap of an `int` result. -/
def wrap32 (z : Int) : Int := (z + 2147483648) % 4294967296 - 2147483648

/-- Wrap of a `uint32_t` result. -/
def wrapU32 (n : Nat) : Nat := n % 4294967296

/-! ## Data model -/

/-- The members of `GamescopeUpscaleFilter` (main.hpp). -/
inductive GamescopeUpscaleFilter where
  | LINEAR
  | NEAREST
  | FSR
  | NIS
  | PIXEL
  deriving DecidableEq, Repr

/-- The `enum UserEvents` of the file. -/
inductive UserEvents where
  | USER_EVENT_TITLE
  | USER_EVENT_VISIBLE
  | USER_EVENT_GRAB
  | USER_EVENT_CURSOR
  deriving DecidableEq, Repr

/-- A host window: its handle and what the host answers to
`SDL_GetWindowPosition`, `SDL_GetWindowSize`, `SDL_GetWindowSizeInPixels` and
`SDL_GetWindowDisplayMode` (`none` when that query fails). -/
structure Window where
  handle : Nat
  x : Int
  y : Int
  width : Int
  height : Int
  widthPx : Int
  heightPx : Int
  refresh_rate : Option Int
  deriving DecidableEq, Repr

/-- An entry of `g_outputs`, as far as this file writes it. -/
structure Output where
  width : Int
  height : Int
  deriving DecidableEq, Repr

/-- The `struct SDLPendingCursor`; `data` is the shared pointer's address. -/
structure SDLPendingCursor where
  width : Nat
  height : Nat
  xhot : Nat
  yhot : Nat
  data : Option Nat
  deriving DecidableEq, Repr

/-- A surface of the host, known by what `SDL_CreateRGBSurfaceFrom` was given
to build it: the vector the pixels live in, the index of the first pixel, the
size and the pitch. -/
structure Surface where
  pixels : Option Nat
  first : Nat
  width : Nat
  height : Nat
  pitch : Nat
  deriving DecidableEq, Repr

/-- A cursor of the host, known by what `SDL_CreateColorCursor` was given to
build it. -/
structure Cursor where
  surface : Option Surface
  xhot : Nat
  yhot : Nat
  deriving DecidableEq, Repr

/-- The parts of the build and of the process the file takes from elsewhere:
the scancode table of sdlscancodetable.hpp, `SDL_VERSION_ATLEAST(2, 26, 0)`,
`BIsSDLSession()`, the pointees of the shared pointers, and the `float`
arithmetic. -/
structure Platform (F : Type) where
  s_ScancodeTable : List Nat
  sdlAtLeast_2_26 : Bool
  isSDLSession : Bool
  stringAt : Nat → String
  vectorAt : Nat → List Nat
  floatOfInt : Int → F
  floatDiv : F → F → F

/-- The globals of the file and the locals of `inputSDLThreadRun` that live
across iterations. -/
structure State where
  g_bWindowShown : Bool
  g_nOldNestedRefresh : Int
  g_bWindowFocused : Bool
  g_nOutputWidthPts : Int
  g_nOutputHeightPts : Int
  g_nOutputWidth : Int
  g_nOutputHeight : Int
  g_nOutputRefresh : Int
  g_nNestedRefresh : Int
  g_nNestedUnfocusedRefresh : Int
  g_outputs : List Output
  g_SDLWindows : List Window
  g_SDLWindowTitle : Option Nat
  g_SDLWindowIcon : Option Nat
  g_bUpdateSDLWindowTitle : Bool
  g_bUpdateSDLWindowIcon : Bool
  g_SDLPendingCursorData : SDLPendingCursor
  g_bUpdateSDLCursor : Bool
  g_bFullscreen : Bool
  g_bGrabbed : Bool
  g_wantedUpscaleFilter : GamescopeUpscaleFilter
  g_upscaleFilterSharpness : Int
  steamMode : Bool
  g_bFirstFrame : Bool
  g_bForceRelativeMouse : Bool
  s_bWasGrabbed : Bool
  bRelativeMouse : Bool
  fake_timestamp : Nat
  cursor_surface : Option Surface
  icon_surface : Option Surface
  cursor : Option Cursor
  deriving DecidableEq, Repr

/-- The `event.window.event` values the loop distinguishes; `OTHER` is every
value that reaches `default`. -/
inductive WindowEventID where
  | CLOSE
  | MOVED
  | SHOWN
  | SIZE_CHANGED
  | FOCUS_LOST
  | FOCUS_GAINED
  | EXPOSED
  | OTHER
  deriving DecidableEq, Repr

/-- An `SDL_Event`, by `event.type`, with the fields the loop reads. `mouseButton`
covers SDL_MOUSEBUTTONDOWN and SDL_MOUSEBUTTONUP (the loop reads
`event.button.state`, not the type); `user` is an event whose type is
`g_unSDLUserEventID + kind`; `unhandled` is any other type. -/
inductive Event (F : Type) where
  | clipboardUpdate
  | mouseMotion (x y xrel yrel : Int)
  | mouseButton (button : Nat) (state : Nat)
  | mouseWheel (x y : Int)
  | fingerMotion (x y : F) (fingerId : Int)
  | fingerDown (x y : F) (fingerId : Int)
  | fingerUp (fingerId : Int)
  | keyDown (scancode : Nat) (mod : Nat) (rpt : Nat)
  | keyUp (scancode : Nat) (mod : Nat) (rpt : Nat)
  | window (event : WindowEventID)
  | user (kind : UserEvents) (code : Int)
  | unhandled

/-- A call the file makes to a collaborator. -/
inductive Call (F : Type) where
  | wlserver_lock
  | wlserver_unlock
  | wlserver_mousemotion (dx dy : Int) (time : Nat)
  | wlserver_touchmotion (x y : F) (touch_id : Int) (time : Nat)
  | wlserver_mousebutton (button : Int) (press : Bool) (time : Nat)
  | wlserver_mousewheel (x y : Int) (time : Nat)
  | wlserver_touchdown (x y : F) (touch_id : Int) (time : Nat)
  | wlserver_touchup (touch_id : Int) (time : Nat)
  | wlserver_key (key : Nat) (press : Bool) (time : Nat)
  | set_gamescope_selections
  | take_screenshot
  | force_repaint
  | raise_SIGTERM
  | SDL_SetWindowFullscreen (window : Nat) (flags : Nat)
  | SDL_SetWindowKeyboardGrab (window : Nat) (grabbed : Bool)
  | SDL_PushEvent (kind : UserEvents) (code : Option Int)
  | SDL_SetWindowTitle (window : Nat) (title : String)
  | SDL_FreeSurface (surface : Surface)
  | SDL_SetWindowIcon (window : Nat) (icon : Option Surface)
  | SDL_ShowWindow (window : Nat)
  | SDL_HideWindow (window : Nat)
  | SDL_SetRelativeMouseMode (enabled : Bool)
  | SDL_FreeCursor (cursor : Cursor)
  | SDL_SetCursor (cursor : Cursor)

namespace Call

variable {F : Type}

/-- Is the call one to the compositor input server (wlserver.hpp)? -/
def isWlserver : Call F → Bool
  | wlserver_lock => true
  | wlserver_unlock => true
  | wlserver_mousemotion _ _ _ => true
  | wlserver_touchmotion _ _ _ _ => true
  | wlserver_mousebutton _ _ _ => true
  | wlserver_mousewheel _ _ _ => true
  | wlserver_touchdown _ _ _ _ => true
  | wlserver_touchup _ _ => true
  | wlserver_key _ _ _ => true
  | _ => false

/-- The key and the pressed flag of a `wlserver_key` call. -/
def keyCall? : Call F → Option (Nat × Bool)
  | wlserver_key key press _ => some (key, press)
  | _ => none

/-- The deltas of a `wlserver_mousemotion` call. -/
def relativeMotion? : Call F → Option (Int × Int)
  | wlserver_mousemotion dx dy _ => some (dx, dy)
  | _ => none

/-- The coordinates and touch id of a `wlserver_touchmotion` call. -/
def touchMotion? : Call F → Option (F × F × Int)
  | wlserver_touchmotion x y id _ => some (x, y, id)
  | _ => none

/-- The button and the pressed flag of a `wlserver_mousebutton` call. -/
def buttonCall? : Call F → Option (Int × Bool)
  | wlserver_mousebutton button press _ => some (button, press)
  | _ => none

/-- The window and text of an `SDL_SetWindowTitle` call. -/
def titleCall? : Call F → Option (Nat × String)
  | SDL_SetWindowTitle window title => some (window, title)
  | _ => none

/-- The window and surface of an `SDL_SetWindowIcon` call. -/
def iconCall? : Call F → Option (Nat × Option Surface)
  | SDL_SetWindowIcon window icon => some (window, icon)
  | _ => none

/-- The cursor of an `SDL_SetCursor` call. -/
def cursorCall? : Call F → Option Cursor
  | SDL_SetCursor c => some c
  | _ => none

end Call

/-! ## The helpers of the file -/

section Operations

variable {F : Type}

/-- Lines 74-81: convert from the remote scancode to a Linux event keycode. -/
def SDLScancodeToLinuxKey (s_ScancodeTable : List Nat) (nScancode : Nat) : Nat :=
  if nScancode < s_ScancodeTable.length then
    s_ScancodeTable.getD nScancode KEY_RESERVED
  else
    KEY_RESERVED

/-- Lines 83-94. -/
def SDLButtonToLinuxButton (SDLButton : Nat) : Int :=
  if SDLButton = SDL_BUTTON_LEFT then BTN_LEFT
  else if SDLButton = SDL_BUTTON_MIDDLE then BTN_MIDDLE
  else if SDLButton = SDL_BUTTON_RIGHT then BTN_RIGHT
  else if SDLButton = SDL_BUTTON_X1 then BTN_SIDE
  else if SDLButton = SDL_BUTTON_X2 then BTN_EXTRA
  else 0

/-- Lines 101-107: the loop of `updateOutputRefresh` over the windows, on the
local `refresh_rate`. -/
def updateOutputRefresh_loop (refresh_rate : Int) : List Window → Int
  | [] => refresh_rate
  | display :: rest =>
    match display.refresh_rate with
    | some r => updateOutputRefresh_loop (min refresh_rate r) rest
    | none => updateOutputRefresh_loop refresh_rate rest

/-- Lines 96-110. -/
def updateOutputRefresh (s : State) : State :=
  { s with g_nOutputRefresh := updateOutputRefresh_loop INT32_MAX s.g_SDLWindows }

/-- The locals of `updateOutputResolution`, with `g_outputs`. -/
structure ResolutionLocals where
  lowest_x : Int
  lowest_y : Int
  highest_x : Int
  highest_y : Int
  highest_x_px : Int
  highest_y_px : Int
  g_outputs : List Output
  deriving DecidableEq, Repr

/-- The assignment `g_outputs[i].width = width; g_outputs[i].height = height`
under its guard `i < g_outputs.size()`. -/
def setOutputSize : List Output → Nat → Int → Int → List Output
  | [], _, _, _ => []
  | _ :: rest, 0, width, height => { width := width, height := height } :: rest
  | o :: rest, i + 1, width, height => o :: setOutputSize rest i width height

/-- Lines 126-162: one pass of the loop body of `updateOutputResolution`, for
window number `i`: the value each local has at the end of the pass. The second
pair `width`, `height` is what `SDL_GetWindowSizeInPixels` stores into the same
two variables. -/
def updateOutputResolution_iter (sdlAtLeast_2_26 : Bool) (l : ResolutionLocals) (i : Nat)
    (display : Window) : ResolutionLocals :=
  let x := display.x
  let y := display.y
  let width := display.width
  let height := display.height
  let widthPx := display.widthPx
  let heightPx := display.heightPx
  { lowest_x := if x < l.lowest_x then x else l.lowest_x,
    lowest_y := if y < l.lowest_y then y else l.lowest_y,
    highest_x := if wrap32 (x + width) > l.highest_x then wrap32 (x + width) else l.highest_x,
    highest_y := if wrap32 (y + height) > l.highest_y then wrap32 (y + height) else l.highest_y,
    highest_x_px :=
      if sdlAtLeast_2_26 then
        if wrap32 (x + widthPx) > l.highest_x_px then wrap32 (x + widthPx) else l.highest_x_px
      else l.highest_x_px,
    highest_y_px :=
      if sdlAtLeast_2_26 then
        if wrap32 (y + heightPx) > l.highest_y_px then wrap32 (y + heightPx) else l.highest_y_px
      else l.highest_y_px,
    g_outputs :=
      if sdlAtLeast_2_26 then
        setOutputSize (setOutputSize l.g_outputs i width height) i widthPx heightPx
      else setOutputSize l.g_outputs i width height }

/-- Lines 125-163: the loop `for(int i = 0; i < g_SDLWindows.size(); i++)`,
from window number `i` on. -/
def updateOutputResolution_loop (sdlAtLeast_2_26 : Bool) :
    ResolutionLocals → Nat → List Window → ResolutionLocals
  | l, _, [] => l
  | l, i, display :: rest =>
    updateOutputResolution_loop sdlAtLeast_2_26
      (updateOutputResolution_iter sdlAtLeast_2_26 l i display) (i + 1) rest

/-- Lines 112-172. -/
def updateOutputResolution (sdlAtLeast_2_26 : Bool) (s : State) : State :=
  let l := updateOutputResolution_loop sdlAtLeast_2_26
    { lowest_x := INT32_MAX, lowest_y := INT32_MAX,
      highest_x := -INT32_MAX, highest_y := -INT32_MAX,
      highest_x_px := -INT32_MAX, highest_y_px := -INT32_MAX,
      g_outputs := s.g_outputs } 0 s.g_SDLWindows
  let s := { s with
    g_outputs := l.g_outputs,
    g_nOutputWidthPts := wrap32 (l.highest_x - l.lowest_x),
    g_nOutputHeightPts := wrap32 (l.highest_y - l.lowest_y) }
  if sdlAtLeast_2_26 then
    { s with
      g_nOutputWidth := wrap32 (l.highest_x_px - l.lowest_x),
      g_nOutputHeight := wrap32 (l.highest_y_px - l.lowest_y) }
  else s

/-! ## The event loop -/

/-- Line 313: `shortcutKeys`. -/
def shortcutKeys : List Nat :=
  [KEY_F, KEY_N, KEY_B, KEY_U, KEY_Y, KEY_I, KEY_O, KEY_S, KEY_G]

/-- The test `event.key.keysym.mod & KMOD_LGUI` of lines 310 and 324. -/
def superHeld (mod : Nat) : Bool := (mod &&& KMOD_LGUI) != 0

/-- Lines 326-371: the `switch ( key )` of a key-up with the modifier held.
`some` is `handled == true`, with the state and the calls of the case taken;
`none` is the `default` case, `handled = false`. -/
def shortcutSwitch (s : State) (key : Nat) : Option (State × List (Call F)) :=
  if key = KEY_F then
    let s := { s with g_bFullscreen := !s.g_bFullscreen }
    some (s, s.g_SDLWindows.map fun window =>
      Call.SDL_SetWindowFullscreen window.handle
        (if s.g_bFullscreen then SDL_WINDOW_FULLSCREEN_DESKTOP else 0))
  else if key = KEY_N then
    some ({ s with g_wantedUpscaleFilter := GamescopeUpscaleFilter.PIXEL }, [])
  else if key = KEY_B then
    some ({ s with g_wantedUpscaleFilter := GamescopeUpscaleFilter.LINEAR }, [])
  else if key = KEY_U then
    let filter := if s.g_wantedUpscaleFilter = GamescopeUpscaleFilter.FSR then
      GamescopeUpscaleFilter.LINEAR else GamescopeUpscaleFilter.FSR
    some ({ s with g_wantedUpscaleFilter := filter }, [])
  else if key = KEY_Y then
    let filter := if s.g_wantedUpscaleFilter = GamescopeUpscaleFilter.NIS then
      GamescopeUpscaleFilter.LINEAR else GamescopeUpscaleFilter.NIS
    some ({ s with g_wantedUpscaleFilter := filter }, [])
  else if key = KEY_I then
    let sharpness := min 20 (wrap32 (s.g_upscaleFilterSharpness + 1))
    some ({ s with g_upscaleFilterSharpness := sharpness }, [])
  else if key = KEY_O then
    let sharpness := max 0 (wrap32 (s.g_upscaleFilterSharpness - 1))
    some ({ s with g_upscaleFilterSharpness := sharpness }, [])
  else if key = KEY_S then
    some (s, [Call.take_screenshot])
  else if key = KEY_G then
    let s := { s with g_bGrabbed := !s.g_bGrabbed }
    let grabCalls : List (Call F) := s.g_SDLWindows.map fun window =>
      Call.SDL_SetWindowKeyboardGrab window.handle s.g_bGrabbed
    some ({ s with g_bUpdateSDLWindowTitle := true },
      grabCalls ++ [Call.SDL_PushEvent UserEvents.USER_EVENT_TITLE none])
  else
    none

/-- Lines 378-385: the end of the shared key branch, the repeat filter and the
forwarding call. -/
def forwardKey (s : State) (key : Nat) (isKeyDown : Bool) (rpt : Nat) :
    State × List (Call F) :=
  if rpt ≠ 0 then (s, [])
  else (s, [Call.wlserver_lock,
            Call.wlserver_key key isKeyDown s.fake_timestamp,
            Call.wlserver_unlock])

/-- Lines 321-385: `case SDL_KEYUP`, which a key-down that is not consumed
falls through to; `isKeyDown` is `event.type == SDL_KEYDOWN`. -/
def keyBranch (cfg : Platform F) (s : State) (isKeyDown : Bool)
    (scancode mod rpt : Nat) : State × List (Call F) :=
  let key := SDLScancodeToLinuxKey cfg.s_ScancodeTable scancode
  if !isKeyDown && superHeld mod then
    match shortcutSwitch s key with
    | some r => r
    | none => forwardKey s key isKeyDown rpt
  else
    forwardKey s key isKeyDown rpt

/-- Lines 307-320: `case SDL_KEYDOWN`. -/
def keyDownBranch (cfg : Platform F) (s : State) (scancode mod rpt : Nat) :
    State × List (Call F) :=
  if superHeld mod then
    let key := SDLScancodeToLinuxKey cfg.s_ScancodeTable scancode
    let isShortcutKey := decide (key ∈ shortcutKeys)
    if isShortcutKey then (s, [])
    else keyBranch cfg s true scancode mod rpt
  else keyBranch cfg s true scancode mod rpt

/-- Lines 386-414: `case SDL_WINDOWEVENT`. -/
def windowBranch (cfg : Platform F) (s : State) : WindowEventID → State × List (Call F)
  | .CLOSE => (s, [Call.raise_SIGTERM])
  | .OTHER => (s, [])
  | .MOVED => (updateOutputRefresh s, [])
  | .SHOWN => (updateOutputRefresh s, [])
  | .SIZE_CHANGED =>
    (updateOutputRefresh (updateOutputResolution cfg.sdlAtLeast_2_26 s), [])
  | .FOCUS_LOST =>
    ({ s with g_nNestedRefresh := s.g_nNestedUnfocusedRefresh, g_bWindowFocused := false }, [])
  | .FOCUS_GAINED =>
    ({ s with g_nNestedRefresh := s.g_nOldNestedRefresh, g_bWindowFocused := true }, [])
  | .EXPOSED => (s, [Call.force_repaint])

/-- Lines 423-434: the text handed to `SDL_SetWindowTitle`. -/
def windowTitleText (cfg : Platform F) (title : Option Nat) (grabbed : Bool) : String :=
  let window_title := match title with
    | some p => cfg.stringAt p
    | none => DEFAULT_TITLE
  if grabbed then window_title ++ " (grabbed)" else window_title

/-- Lines 419-439: the title half of the USER_EVENT_TITLE handler. -/
def applyTitle (cfg : Platform F) (s : State) : State × List (Call F) :=
  if s.g_bUpdateSDLWindowTitle then
    let text := windowTitleText cfg s.g_SDLWindowTitle s.g_bGrabbed
    ({ s with g_bUpdateSDLWindowTitle := false },
      s.g_SDLWindows.map fun window => Call.SDL_SetWindowTitle window.handle text)
  else (s, [])

/-- Lines 449-459: the surface built from `g_SDLWindowIcon`, or none. -/
def iconSurface (cfg : Platform F) (icon : Option Nat) : Option Surface :=
  match icon with
  | some p =>
    if (cfg.vectorAt p).length ≥ 3 then
      let width := (cfg.vectorAt p).getD 0 0
      let height := (cfg.vectorAt p).getD 1 0
      some { pixels := some p, first := 2, width := width, height := height,
             pitch := width * 4 }
    else none
  | none => none

/-- Lines 441-465: the icon half of the USER_EVENT_TITLE handler. -/
def applyIcon (cfg : Platform F) (s : State) : State × List (Call F) :=
  if s.g_bUpdateSDLWindowIcon then
    let freed : List (Call F) := match s.icon_surface with
      | some old => [Call.SDL_FreeSurface old]
      | none => []
    let icon_surface := iconSurface cfg s.g_SDLWindowIcon
    ({ s with icon_surface := icon_surface },
      freed ++ s.g_SDLWindows.map fun window =>
        Call.SDL_SetWindowIcon window.handle icon_surface)
  else (s, [])

/-- Lines 416-467: the handler of USER_EVENT_TITLE. -/
def titleBranch (cfg : Platform F) (s : State) : State × List (Call F) :=
  let r1 := applyTitle cfg s
  let r2 := applyIcon cfg r1.1
  (r2.1, r1.2 ++ r2.2)

/-- Lines 468-494: the handler of USER_EVENT_VISIBLE. -/
def visibleBranch (s : State) (code : Int) : State × List (Call F) :=
  let should_show := decide (code ≠ 0)
  let should_show := if s.steamMode then should_show || !s.g_bFirstFrame else should_show
  if s.g_bWindowShown != should_show then
    let s := { s with g_bWindowShown := should_show }
    if s.g_bWindowShown then
      (s, s.g_SDLWindows.map fun window => Call.SDL_ShowWindow window.handle)
    else
      (s, s.g_SDLWindows.map fun window => Call.SDL_HideWindow window.handle)
  else (s, [])

/-- Lines 495-503: the handler of USER_EVENT_GRAB. -/
def grabBranch (s : State) (code : Int) : State × List (Call F) :=
  let grab := decide (code ≠ 0)
  if grab != s.bRelativeMouse then
    ({ s with bRelativeMouse := grab }, [Call.SDL_SetRelativeMouseMode grab])
  else (s, [])

/-- Lines 504-527: the handler of USER_EVENT_CURSOR. -/
def cursorBranch (s : State) : State × List (Call F) :=
  if s.g_bUpdateSDLCursor then
    let freedSurface : List (Call F) := match s.cursor_surface with
      | some old => [Call.SDL_FreeSurface old]
      | none => []
    let cursor_surface : Surface :=
      { pixels := s.g_SDLPendingCursorData.data, first := 0,
        width := s.g_SDLPendingCursorData.width,
        height := s.g_SDLPendingCursorData.height,
        pitch := s.g_SDLPendingCursorData.width * 4 }
    let freedCursor : List (Call F) := match s.cursor with
      | some old => [Call.SDL_FreeCursor old]
      | none => []
    let cursor : Cursor :=
      { surface := some cursor_surface,
        xhot := s.g_SDLPendingCursorData.xhot, yhot := s.g_SDLPendingCursorData.yhot }
    ({ s with cursor_surface := some cursor_surface, cursor := some cursor,
              g_bUpdateSDLCursor := false },
      freedSurface ++ freedCursor ++ [Call.SDL_SetCursor cursor])
  else (s, [])

/-- Line 251: `fake_timestamp++`. -/
def tick (s : State) : State :=
  { s with fake_timestamp := wrapU32 (s.fake_timestamp + 1) }

/-- Lines 249-530: one iteration of `while( SDL_WaitEvent( &event ) )`. -/
def inputSDLThreadRun_body (cfg : Platform F) (s0 : State) (event : Event F) :
    State × List (Call F) :=
  let s := tick s0
  match event with
  | .clipboardUpdate => (s, [Call.set_gamescope_selections])
  | .mouseMotion x y xrel yrel =>
    if s.bRelativeMouse then
      if s.g_bWindowFocused then
        (s, [Call.wlserver_lock,
             Call.wlserver_mousemotion xrel yrel s.fake_timestamp,
             Call.wlserver_unlock])
      else (s, [])
    else
      (s, [Call.wlserver_lock,
           Call.wlserver_touchmotion
             (cfg.floatDiv (cfg.floatOfInt x) (cfg.floatOfInt s.g_nOutputWidthPts))
             (cfg.floatDiv (cfg.floatOfInt y) (cfg.floatOfInt s.g_nOutputHeightPts))
             0 s.fake_timestamp,
           Call.wlserver_unlock])
  | .mouseButton button state =>
    (s, [Call.wlserver_lock,
         Call.wlserver_mousebutton (SDLButtonToLinuxButton button)
           (decide (state = SDL_PRESSED)) s.fake_timestamp,
         Call.wlserver_unlock])
  | .mouseWheel x y =>
    (s, [Call.wlserver_lock,
         Call.wlserver_mousewheel (wrap32 (-x)) (wrap32 (-y)) s.fake_timestamp,
         Call.wlserver_unlock])
  | .fingerMotion x y fingerId =>
    (s, [Call.wlserver_lock,
         Call.wlserver_touchmotion x y fingerId s.fake_timestamp,
         Call.wlserver_unlock])
  | .fingerDown x y fingerId =>
    (s, [Call.wlserver_lock,
         Call.wlserver_touchdown x y fingerId s.fake_timestamp,
         Call.wlserver_unlock])
  | .fingerUp fingerId =>
    (s, [Call.wlserver_lock,
         Call.wlserver_touchup fingerId s.fake_timestamp,
         Call.wlserver_unlock])
  | .keyDown scancode mod rpt => keyDownBranch cfg s scancode mod rpt
  | .keyUp scancode mod rpt => keyBranch cfg s false scancode mod rpt
  | .window event => windowBranch cfg s event
  | .user .USER_EVENT_TITLE _ => titleBranch cfg s
  | .user .USER_EVENT_VISIBLE code => visibleBranch s code
  | .user .USER_EVENT_GRAB code => grabBranch s code
  | .user .USER_EVENT_CURSOR _ => cursorBranch s
  | .unhandled => (s, [])

/-- The loop over the events the host hands out, in order: the final state and
all calls made. -/
def inputSDLThreadRun_events (cfg : Platform F) :
    State → List (Event F) → State × List (Call F)
  | s, [] => (s, [])
  | s, event :: rest =>
    let r := inputSDLThreadRun_body cfg s event
    let r2 := inputSDLThreadRun_events cfg r.1 rest
    (r2.1, r.2 ++ r2.2)

/-! ## The producer entry points -/

/-- Lines 558-585. -/
def sdlwindow_title (cfg : Platform F) (s : State) (title icon : Option Nat) :
    State × List (Call F) :=
  if !cfg.isSDLSession then (s, [])
  else
    let s := if s.g_SDLWindowTitle ≠ title then
        { s with g_SDLWindowTitle := title, g_bUpdateSDLWindowTitle := true } else s
    let s := if s.g_SDLWindowIcon ≠ icon then
        { s with g_SDLWindowIcon := icon, g_bUpdateSDLWindowIcon := true } else s
    if s.g_bUpdateSDLWindowTitle || s.g_bUpdateSDLWindowIcon then
      (s, [Call.SDL_PushEvent UserEvents.USER_EVENT_TITLE none])
    else (s, [])

/-- Lines 612-621. -/
def sdlwindow_visible (cfg : Platform F) (s : State) (bVisible : Bool) :
    State × List (Call F) :=
  if !cfg.isSDLSession then (s, [])
  else (s, [Call.SDL_PushEvent UserEvents.USER_EVENT_VISIBLE (some (if bVisible then 1 else 0))])

/-- Lines 623-642. -/
def sdlwindow_grab (cfg : Platform F) (s : State) (bGrab : Bool) :
    State × List (Call F) :=
  if !cfg.isSDLSession then (s, [])
  else if s.g_bForceRelativeMouse then (s, [])
  else if s.s_bWasGrabbed = bGrab then (s, [])
  else
    ({ s with s_bWasGrabbed := bGrab },
      [Call.SDL_PushEvent UserEvents.USER_EVENT_GRAB (some (if bGrab then 1 else 0))])

/-- Lines 644-665. -/
def sdlwindow_cursor (cfg : Platform F) (s : State) (pixels : Option Nat)
    (width height xhot yhot : Nat) : State × List (Call F) :=
  if !cfg.isSDLSession then (s, [])
  else if s.g_bForceRelativeMouse then (s, [])
  else
    ({ s with
        g_SDLPendingCursorData :=
          { width := width, height := height, xhot := xhot, yhot := yhot, data := pixels },
        g_bUpdateSDLCursor := true },
      [Call.SDL_PushEvent UserEvents.USER_EVENT_CURSOR none])

/-- A `sdlwindow_title` request: the two shared pointers passed. -/
structure TitleRequest where
  title : Option Nat
  icon : Option Nat
  deriving DecidableEq, Repr

/-- A run of `sdlwindow_title` calls, in order, with no loop iteration in
between: the state they leave. -/
def sdlwindow_title_all (cfg : Platform F) : State → List TitleRequest → State
  | s, [] => s
  | s, r :: rest => sdlwindow_title_all cfg (sdlwindow_title cfg s r.title r.icon).1 rest

end Operations

/-! ## The `float` arithmetic of the target: IEEE 754 binary32

`event.motion.x / float(g_nOutputWidthPts)` converts both `int` operands to
`float` and divides in binary32, rounding to nearest, ties to even. A value is
kept as its sign and its exact rational magnitude. -/

/-- A binary32 value: a finite one (sign and magnitude, so that the two zeros
are kept apart), an infinity, or a NaN. -/
inductive Binary32 where
  | finite (negative : Bool) (magnitude : ℚ)
  | infinite (negative : Bool)
  | nan
  deriving DecidableEq

/-- The integer nearest to `q`, the even one of the two on a tie. -/
def roundHalfEven (q : ℚ) : Int :=
  let f := ⌊q⌋
  if q - f < 1 / 2 then f
  else if 1 / 2 < q - f then f + 1
  else if f % 2 = 0 then f else f + 1

/-- The exponent of the binade of `q > 0`, not below that of the subnormals. -/
def binade (q : ℚ) : Int := max (Int.log 2 q) (-126)

/-- The binary32 value nearest to the magnitude `q ≥ 0`, with the sign given:
24 significant bits, ties to even, overflow to infinity. -/
def Binary32.round (negative : Bool) (q : ℚ) : Binary32 :=
  if q = 0 then .finite negative 0
  else
    let ulp : ℚ := 2 ^ (binade q - 23)
    let r : ℚ := roundHalfEven (q / ulp) * ulp
    if r < 2 ^ 128 then .finite negative r else .infinite negative

/-- The conversion of an `int` to `float`. -/
def Binary32.ofInt (i : Int) : Binary32 := Binary32.round (decide (i < 0)) |(i : ℚ)|

/-- The division of two `float` values. -/
def Binary32.div : Binary32 → Binary32 → Binary32
  | .nan, _ => .nan
  | _, .nan => .nan
  | .infinite _, .infinite _ => .nan
  | .infinite a, .finite b _ => .infinite (xor a b)
  | .finite a _, .infinite b => .finite (xor a b) 0
  | .finite a x, .finite b y =>
    if y = 0 then (if x = 0 then .nan else .infinite (xor a b))
    else Binary32.round (xor a b) (x / y)

/-! ## Notions the statements use -/

/-- The host button ids `SDLButtonToLinuxButton` has a case for. -/
def mappedButtons : List Nat :=
  [SDL_BUTTON_LEFT, SDL_BUTTON_MIDDLE, SDL_BUTTON_RIGHT, SDL_BUTTON_X1, SDL_BUTTON_X2]

/-- The text of a title request: the string behind the pointer passed, or
"gamescope" when the pointer is null. -/
def requestText {F : Type} (cfg : Platform F) (title : Option Nat) : String :=
  match title with
  | some p => cfg.stringAt p
  | none => "gamescope"

/-- The current window title: the requested one, or the default when none was
requested. -/
def currentTitle {F : Type} (cfg : Platform F) (s : State) : String :=
  match s.g_SDLWindowTitle with
  | some p => cfg.stringAt p
  | none => "gamescope"

/-- The minimum of `f` over the windows (0 when there is no window). -/
def minOver (f : Window → Int) : List Window → Int
  | [] => 0
  | w :: rest => rest.foldl (fun m v => min m (f v)) (f w)

/-- The maximum of `f` over the windows (0 when there is no window). -/
def maxOver (f : Window → Int) : List Window → Int
  | [] => 0
  | w :: rest => rest.foldl (fun m v => max m (f v)) (f w)

/-- The width in points of the bounding box of the windows: (max of x + width)
minus (min of x). -/
def boundingWidthPts (ws : List Window) : Int :=
  maxOver (fun w => w.x + w.width) ws - minOver (fun w => w.x) ws

/-- The height in points of the bounding box of the windows: (max of
y + height) minus (min of y). -/
def boundingHeightPts (ws : List Window) : Int :=
  maxOver (fun w => w.y + w.height) ws - minOver (fun w => w.y) ws

/-! ## Sample inputs -/

/-- The start of a scancode table in the order of the SDL scancodes: entries 4
to 10 are the Linux codes of the keys A to G. -/
def sampleScancodeTable : List Nat :=
  [0, 0, 0, 0, 30, 48, 46, 32, 18, 33, 34]

/-- A platform with the sample table, an SDL session, two strings and one icon
vector behind the shared pointers, and binary32 arithmetic. -/
def samplePlatform : Platform Binary32 where
  s_ScancodeTable := sampleScancodeTable
  sdlAtLeast_2_26 := true
  isSDLSession := true
  stringAt := fun p => if p = 1 then "Portal" else "Half-Life"
  vectorAt := fun _ => [1, 1, 4278190080]
  floatOfInt := Binary32.ofInt
  floatDiv := Binary32.div

/-- One host window of 1920 by 1080 at the origin. -/
def sampleWindow : Window where
  handle := 1
  x := 0
  y := 0
  width := 1920
  height := 1080
  widthPx := 1920
  heightPx := 1080
  refresh_rate := some 60

/-- The state after start-up with `sampleWindow`: focused, not grabbed,
absolute pointer, nothing pending. -/
def sampleState : State where
  g_bWindowShown := false
  g_nOldNestedRefresh := 0
  g_bWindowFocused := true
  g_nOutputWidthPts := 1920
  g_nOutputHeightPts := 1080
  g_nOutputWidth := 1920
  g_nOutputHeight := 1080
  g_nOutputRefresh := 60
  g_nNestedRefresh := 0
  g_nNestedUnfocusedRefresh := 0
  g_outputs := [{ width := 1920, height := 1080 }]
  g_SDLWindows := [sampleWindow]
  g_SDLWindowTitle := none
  g_SDLWindowIcon := none
  g_bUpdateSDLWindowTitle := false
  g_bUpdateSDLWindowIcon := false
  g_SDLPendingCursorData := { width := 0, height := 0, xhot := 0, yhot := 0, data := none }
  g_bUpdateSDLCursor := false
  g_bFullscreen := false
  g_bGrabbed := false
  g_wantedUpscaleFilter := GamescopeUpscaleFilter.LINEAR
  g_upscaleFilterSharpness := 2
  steamMode := false
  g_bFirstFrame := true
  g_bForceRelativeMouse := false
  s_bWasGrabbed := false
  bRelativeMouse := false
  fake_timestamp := 0
  cursor_surface := none
  icon_surface := none
  cursor := none

/-- The sample state after `sdlwindow_title` with the title at address 1 and the
icon vector at address 7. -/
def iconRequested : State :=
  (sdlwindow_title samplePlatform sampleState (some 1) (some 7)).1

/-- The sample state with a second window of the same size, which the host has
since moved from x = 1920 to x = 2500; the stored size in points, 3840 by 1080,
is the one computed before the move. -/
def movedWindowState : State :=
  { sampleState with
    g_SDLWindows := [sampleWindow, { sampleWindow with handle := 2, x := 2500 }],
    g_outputs := [{ width := 1920, height := 1080 }, { width := 1920, height := 1080 }],
    g_nOutputWidthPts := 3840,
    g_nOutputWidth := 3840 }

/-! ## Lemmas on the shortcut switch -/

section Lemmas

variable {F : Type}

theorem filter_isWlserver_map_eq_nil {α : Type} (f : α → Call F)
    (hf : ∀ a, (f a).isWlserver = false) (l : List α) :
    (l.map f).filter Call.isWlserver = [] := by
  induction l with
  | nil => rfl
  | cons a l ih => simp [List.filter, hf a, ih]

theorem shortcutSwitch_eq_none (s : State) (key : Nat) (h : key ∉ shortcutKeys) :
    shortcutSwitch (F := F) s key = none := by
  simp only [shortcutKeys, List.mem_cons, List.mem_singleton, List.not_mem_nil, or_false,
    not_or] at h
  obtain ⟨h1, h2, h3, h4, h5, h6, h7, h8, h9⟩ := h
  simp [shortcutSwitch, h1, h2, h3, h4, h5, h6, h7, h8, h9]

theorem shortcutSwitch_no_wlserver (s : State) (key : Nat) (r : State × List (Call F))
    (h : shortcutSwitch s key = some r) : r.2.filter Call.isWlserver = [] := by
  unfold shortcutSwitch at h
  by_cases h1 : key = KEY_F
  · rw [if_pos h1] at h; cases h
    apply filter_isWlserver_map_eq_nil
    intro a; rfl
  rw [if_neg h1] at h
  by_cases h2 : key = KEY_N
  · rw [if_pos h2] at h; cases h; rfl
  rw [if_neg h2] at h
  by_cases h3 : key = KEY_B
  · rw [if_pos h3] at h; cases h; rfl
  rw [if_neg h3] at h
  by_cases h4 : key = KEY_U
  · rw [if_pos h4] at h; cases h; rfl
  rw [if_neg h4] at h
  by_cases h5 : key = KEY_Y
  · rw [if_pos h5] at h; cases h; rfl
  rw [if_neg h5] at h
  by_cases h6 : key = KEY_I
  · rw [if_pos h6] at h; cases h; rfl
  rw [if_neg h6] at h
  by_cases h7 : key = KEY_O
  · rw [if_pos h7] at h; cases h; rfl
  rw [if_neg h7] at h
  by_cases h8 : key = KEY_S
  · rw [if_pos h8] at h; cases h; rfl
  rw [if_neg h8] at h
  by_cases h9 : key = KEY_G
  · rw [if_pos h9] at h; cases h
    show List.filter Call.isWlserver (_ ++ _) = []
    rw [List.filter_append, List.append_eq_nil]
    refine ⟨?_, rfl⟩
    apply filter_isWlserver_map_eq_nil
    intro a; rfl
  rw [if_neg h9] at h
  cases h

theorem forwardKey_rpt (s : State) (key : Nat) (isKeyDown : Bool) (rpt : Nat) (h : rpt ≠ 0) :
    forwardKey (F := F) s key isKeyDown rpt = (s, []) := by
  simp [forwardKey, h]

/-- The absolute branch of the pointer-motion case (lines 268-277). -/
theorem mouseMotion_absolute (cfg : Platform F) (s : State) (x y xrel yrel : Int)
    (habs : s.bRelativeMouse = false) :
    inputSDLThreadRun_body cfg s (.mouseMotion x y xrel yrel) =
      (tick s, [Call.wlserver_lock,
        Call.wlserver_touchmotion
          (cfg.floatDiv (cfg.floatOfInt x) (cfg.floatOfInt s.g_nOutputWidthPts))
          (cfg.floatDiv (cfg.floatOfInt y) (cfg.floatOfInt s.g_nOutputHeightPts))
          0 (tick s).fake_timestamp,
        Call.wlserver_unlock]) := by
  have h2 : (tick s).bRelativeMouse = false := habs
  simp only [inputSDLThreadRun_body, h2]
  rfl

end Lemmas

/-! ## Key events -/

section KeyEvents

variable {F : Type}

/-- C2. For every key-down/key-up pair of one scancode in which neither event
matches a shortcut (its super modifier is not held, or the key code is outside
the shortcut set) and neither is marked repeat, the loop makes exactly two key
calls to the compositor input server, first pressed=true, then pressed=false,
both with the scancode-table translation of the scancode. -/
theorem plain_pair_forwarded (cfg : Platform F) (s : State)
    (scancode modDown modUp : Nat)
    (hdown : ¬ (superHeld modDown = true ∧
      SDLScancodeToLinuxKey cfg.s_ScancodeTable scancode ∈ shortcutKeys))
    (hup : ¬ (superHeld modUp = true ∧
      SDLScancodeToLinuxKey cfg.s_ScancodeTable scancode ∈ shortcutKeys)) :
    inputSDLThreadRun_body cfg s (.keyDown scancode modDown 0) =
      (tick s, [Call.wlserver_lock,
        Call.wlserver_key (SDLScancodeToLinuxKey cfg.s_ScancodeTable scancode) true
          (tick s).fake_timestamp,
        Call.wlserver_unlock]) ∧
    inputSDLThreadRun_body cfg (tick s) (.keyUp scancode modUp 0) =
      (tick (tick s), [Call.wlserver_lock,
        Call.wlserver_key (SDLScancodeToLinuxKey cfg.s_ScancodeTable scancode) false
          (tick (tick s)).fake_timestamp,
        Call.wlserver_unlock]) ∧
    (inputSDLThreadRun_events cfg s
        [.keyDown scancode modDown 0, .keyUp scancode modUp 0]).2.filterMap Call.keyCall? =
      [(SDLScancodeToLinuxKey cfg.s_ScancodeTable scancode, true),
       (SDLScancodeToLinuxKey cfg.s_ScancodeTable scancode, false)] := by
  have hd : inputSDLThreadRun_body cfg s (.keyDown scancode modDown 0) =
      (tick s, [Call.wlserver_lock,
        Call.wlserver_key (SDLScancodeToLinuxKey cfg.s_ScancodeTable scancode) true
          (tick s).fake_timestamp,
        Call.wlserver_unlock]) := by
    by_cases hm : superHeld modDown = true
    · have hk : SDLScancodeToLinuxKey cfg.s_ScancodeTable scancode ∉ shortcutKeys :=
        fun hk => hdown ⟨hm, hk⟩
      simp [inputSDLThreadRun_body, keyDownBranch, keyBranch, forwardKey, hm, hk]
    · simp [inputSDLThreadRun_body, keyDownBranch, keyBranch, forwardKey, hm]
  have hu : inputSDLThreadRun_body cfg (tick s) (.keyUp scancode modUp 0) =
      (tick (tick s), [Call.wlserver_lock,
        Call.wlserver_key (SDLScancodeToLinuxKey cfg.s_ScancodeTable scancode) false
          (tick (tick s)).fake_timestamp,
        Call.wlserver_unlock]) := by
    by_cases hm : superHeld modUp = true
    · have hk : SDLScancodeToLinuxKey cfg.s_ScancodeTable scancode ∉ shortcutKeys :=
        fun hk => hup ⟨hm, hk⟩
      simp [inputSDLThreadRun_body, keyBranch, forwardKey, hm,
        shortcutSwitch_eq_none _ _ hk]
    · simp [inputSDLThreadRun_body, keyBranch, forwardKey, hm]
  refine ⟨hd, hu, ?_⟩
  simp [inputSDLThreadRun_events, hd, hu, Call.keyCall?, List.filterMap]

/-- C2 at the A key of the sample table (scancode 4), once with no modifier on
the key-down and left super on the key-up. -/
theorem plain_pair_forwarded_witness :
    ¬ (superHeld 0 = true ∧
      SDLScancodeToLinuxKey samplePlatform.s_ScancodeTable 4 ∈ shortcutKeys) ∧
    ¬ (superHeld 1024 = true ∧
      SDLScancodeToLinuxKey samplePlatform.s_ScancodeTable 4 ∈ shortcutKeys) ∧
    (inputSDLThreadRun_events samplePlatform sampleState
        [.keyDown 4 0 0, .keyUp 4 1024 0]).2.filterMap Call.keyCall? =
      [(30, true), (30, false)] :=
  ⟨by decide, by decide,
    (plain_pair_forwarded samplePlatform sampleState 4 0 1024 (by decide) (by decide)).2.2⟩

/-- C3. For every key event, key-down or key-up, of any scancode, modifier set
and state, whose repeat flag is set, the loop makes no call to the compositor
input server. -/
theorem repeat_not_forwarded (cfg : Platform F) (s : State) (scancode mod rpt : Nat)
    (hrpt : rpt ≠ 0) :
    (inputSDLThreadRun_body cfg s (.keyDown scancode mod rpt)).2.filter Call.isWlserver = [] ∧
    (inputSDLThreadRun_body cfg s (.keyUp scancode mod rpt)).2.filter Call.isWlserver = [] := by
  have hup : (keyBranch cfg (tick s) false scancode mod rpt).2.filter Call.isWlserver = [] := by
    unfold keyBranch
    by_cases hm : superHeld mod = true
    · cases hsw : shortcutSwitch (F := F) (tick s)
          (SDLScancodeToLinuxKey cfg.s_ScancodeTable scancode) with
      | none => simp [hm, hsw, forwardKey_rpt _ _ _ _ hrpt]
      | some r => simpa [hm, hsw] using shortcutSwitch_no_wlserver _ _ r hsw
    · simp [hm, forwardKey_rpt _ _ _ _ hrpt]
  have hdownBranch : (keyBranch cfg (tick s) true scancode mod rpt).2.filter
      Call.isWlserver = [] := by
    simp [keyBranch, forwardKey_rpt _ _ _ _ hrpt]
  refine ⟨?_, by simpa [inputSDLThreadRun_body] using hup⟩
  show (keyDownBranch cfg (tick s) scancode mod rpt).2.filter Call.isWlserver = []
  unfold keyDownBranch
  by_cases hm : superHeld mod = true
  · by_cases hk : SDLScancodeToLinuxKey cfg.s_ScancodeTable scancode ∈ shortcutKeys
    · simp [hm, hk]
    · simpa [hm, hk] using hdownBranch
  · simpa [hm] using hdownBranch

/-- C3 at a repeated key-down and key-up of the A key of the sample table. -/
theorem repeat_not_forwarded_witness :
    (1 : Nat) ≠ 0 ∧
    (inputSDLThreadRun_body samplePlatform sampleState (.keyDown 4 0 1)).2.filter
      Call.isWlserver = [] ∧
    (inputSDLThreadRun_body samplePlatform sampleState (.keyUp 4 0 1)).2.filter
      Call.isWlserver = [] :=
  ⟨by decide, repeat_not_forwarded samplePlatform sampleState 4 0 1 (by decide)⟩

end KeyEvents

/-! ## Pointer events -/

section PointerEvents

variable {F : Type}

/-- C4. With relative-mouse mode active and the window unfocused, a
pointer-motion event with deltas (xrel, yrel) makes no call to the compositor
input server; the same event processed after a focus-gained event makes exactly
one relative-motion call, with the same deltas, and no touch-motion call. -/
theorem relative_motion_needs_focus (cfg : Platform F) (s : State) (x y xrel yrel : Int)
    (hrel : s.bRelativeMouse = true) (hfocus : s.g_bWindowFocused = false) :
    (inputSDLThreadRun_body cfg s (.mouseMotion x y xrel yrel)).2.filter Call.isWlserver = [] ∧
    (inputSDLThreadRun_body cfg
        (inputSDLThreadRun_body cfg s (.window .FOCUS_GAINED)).1
        (.mouseMotion x y xrel yrel)).2 =
      [Call.wlserver_lock,
       Call.wlserver_mousemotion xrel yrel (tick (tick s)).fake_timestamp,
       Call.wlserver_unlock] ∧
    (inputSDLThreadRun_events cfg s
        [.window .FOCUS_GAINED, .mouseMotion x y xrel yrel]).2.filterMap Call.relativeMotion? =
      [(xrel, yrel)] ∧
    (inputSDLThreadRun_events cfg s
        [.window .FOCUS_GAINED, .mouseMotion x y xrel yrel]).2.filterMap Call.touchMotion? =
      [] := by
  have h1 : (tick s).bRelativeMouse = true := hrel
  have h2 : (tick s).g_bWindowFocused = false := hfocus
  refine ⟨?_, ?_, ?_, ?_⟩
  · simp [inputSDLThreadRun_body, h1, h2]
  · simp [inputSDLThreadRun_body, windowBranch, tick, hrel]
  · simp [inputSDLThreadRun_events, inputSDLThreadRun_body, windowBranch, tick, hrel,
      Call.relativeMotion?, List.filterMap]
  · simp [inputSDLThreadRun_events, inputSDLThreadRun_body, windowBranch, tick, hrel,
      Call.touchMotion?, List.filterMap]

/-- C4 at the sample state put in relative mode and unfocused. -/
theorem relative_motion_needs_focus_witness :
    ({ sampleState with bRelativeMouse := true, g_bWindowFocused := false } : State).bRelativeMouse
      = true ∧
    ({ sampleState with bRelativeMouse := true, g_bWindowFocused := false } : State).g_bWindowFocused
      = false ∧
    (inputSDLThreadRun_body samplePlatform
        { sampleState with bRelativeMouse := true, g_bWindowFocused := false }
        (.mouseMotion 10 20 3 (-4))).2.filter Call.isWlserver = [] ∧
    (inputSDLThreadRun_events samplePlatform
        { sampleState with bRelativeMouse := true, g_bWindowFocused := false }
        [.window .FOCUS_GAINED, .mouseMotion 10 20 3 (-4)]).2.filterMap Call.relativeMotion? =
      [(3, -4)] :=
  ⟨rfl, rfl,
    (relative_motion_needs_focus samplePlatform
      { sampleState with bRelativeMouse := true, g_bWindowFocused := false }
      10 20 3 (-4) rfl rfl).1,
    (relative_motion_needs_focus samplePlatform
      { sampleState with bRelativeMouse := true, g_bWindowFocused := false }
      10 20 3 (-4) rfl rfl).2.2.1⟩

/-- C8 as stated fails: button id 6 has no mapping, and the press still makes a
pointer-button call to the compositor input server (with button code 0). -/
theorem unmapped_button_counterexample :
    6 ∉ mappedButtons ∧
    (inputSDLThreadRun_body samplePlatform sampleState
        (.mouseButton 6 SDL_PRESSED)).2.filterMap Call.buttonCall? = [(0, true)] := by
  decide

/-- C8, amended. For every pointer-button event whose host button id has no
mapping, the loop still makes exactly one pointer-button call to the compositor
input server, under the lock, with button code 0 and the pressed state of the
event. -/
theorem unmapped_button_forwarded_as_zero (cfg : Platform F) (s : State) (button state : Nat)
    (hunmapped : button ∉ mappedButtons) :
    inputSDLThreadRun_body cfg s (.mouseButton button state) =
      (tick s, [Call.wlserver_lock,
        Call.wlserver_mousebutton 0 (decide (state = SDL_PRESSED)) (tick s).fake_timestamp,
        Call.wlserver_unlock]) ∧
    (inputSDLThreadRun_body cfg s (.mouseButton button state)).2.filterMap Call.buttonCall? =
      [(0, decide (state = SDL_PRESSED))] := by
  simp only [mappedButtons, List.mem_cons, List.mem_singleton, List.not_mem_nil, or_false,
    not_or] at hunmapped
  obtain ⟨h1, h2, h3, h4, h5⟩ := hunmapped
  simp [inputSDLThreadRun_body, SDLButtonToLinuxButton, h1, h2, h3, h4, h5,
    Call.buttonCall?, List.filterMap]

/-- C8 amended, at the release of button id 9. -/
theorem unmapped_button_forwarded_as_zero_witness :
    9 ∉ mappedButtons ∧
    (inputSDLThreadRun_body samplePlatform sampleState
        (.mouseButton 9 0)).2.filterMap Call.buttonCall? = [(0, decide (0 = SDL_PRESSED))] :=
  ⟨by decide,
    (unmapped_button_forwarded_as_zero samplePlatform sampleState 9 0 (by decide)).2⟩

end PointerEvents

/-! ## Title, icon and cursor updates -/

section Updates

variable {F : Type}

theorem filterMap_titleCall_map_title (ws : List Window) (text : String) :
    (ws.map fun w => (Call.SDL_SetWindowTitle w.handle text : Call F)).filterMap Call.titleCall?
      = ws.map fun w => (w.handle, text) := by
  induction ws with
  | nil => rfl
  | cons w ws ih => simp [List.filterMap, Call.titleCall?, ih]

theorem filterMap_titleCall_map_icon (ws : List Window) (icon : Option Surface) :
    (ws.map fun w => (Call.SDL_SetWindowIcon w.handle icon : Call F)).filterMap Call.titleCall?
      = [] := by
  induction ws with
  | nil => rfl
  | cons w ws ih => simp [List.filterMap, Call.titleCall?, ih]

theorem filterMap_iconCall_map_icon (ws : List Window) (icon : Option Surface) :
    (ws.map fun w => (Call.SDL_SetWindowIcon w.handle icon : Call F)).filterMap Call.iconCall?
      = ws.map fun w => (w.handle, icon) := by
  induction ws with
  | nil => rfl
  | cons w ws ih => simp [List.filterMap, Call.iconCall?, ih]

theorem filterMap_iconCall_map_title (ws : List Window) (text : String) :
    (ws.map fun w => (Call.SDL_SetWindowTitle w.handle text : Call F)).filterMap Call.iconCall?
      = [] := by
  induction ws with
  | nil => rfl
  | cons w ws ih => simp [List.filterMap, Call.iconCall?, ih]

theorem applyTitle_calls (cfg : Platform F) (s : State) :
    (applyTitle cfg s).2.filterMap Call.titleCall? =
      if s.g_bUpdateSDLWindowTitle then
        s.g_SDLWindows.map fun w =>
          (w.handle, windowTitleText cfg s.g_SDLWindowTitle s.g_bGrabbed)
      else [] := by
  unfold applyTitle
  cases h : s.g_bUpdateSDLWindowTitle
  · simp
  · simp only [↓reduceIte]
    exact filterMap_titleCall_map_title _ _

theorem applyIcon_titleCalls (cfg : Platform F) (s : State) :
    (applyIcon cfg s).2.filterMap Call.titleCall? = [] := by
  unfold applyIcon
  cases h : s.g_bUpdateSDLWindowIcon
  · simp
  · cases s.icon_surface <;>
      simp [List.filterMap_append, filterMap_titleCall_map_icon, List.filterMap, Call.titleCall?]

/-- The title calls of the USER_EVENT_TITLE handler: one per window when the
title flag is set, none otherwise. -/
theorem titleBranch_titleCalls (cfg : Platform F) (s : State) :
    (titleBranch cfg s).2.filterMap Call.titleCall? =
      if s.g_bUpdateSDLWindowTitle then
        s.g_SDLWindows.map fun w =>
          (w.handle, windowTitleText cfg s.g_SDLWindowTitle s.g_bGrabbed)
      else [] := by
  simp only [titleBranch, List.filterMap_append, applyTitle_calls, applyIcon_titleCalls,
    List.append_nil]

theorem applyTitle_fst (cfg : Platform F) (s : State) :
    (applyTitle cfg s).1 = { s with g_bUpdateSDLWindowTitle := false } := by
  unfold applyTitle
  cases h : s.g_bUpdateSDLWindowTitle
  · cases s; simp_all
  · simp

theorem applyIcon_fst (cfg : Platform F) (s : State) :
    (applyIcon cfg s).1 =
      if s.g_bUpdateSDLWindowIcon then
        { s with icon_surface := iconSurface cfg s.g_SDLWindowIcon }
      else s := by
  unfold applyIcon
  cases h : s.g_bUpdateSDLWindowIcon <;> simp

/-- The state the USER_EVENT_TITLE handler leaves: the title flag is cleared,
the icon surface is rebuilt when the icon flag is set, and no other field
changes; the icon flag is among the fields that do not change. -/
theorem titleBranch_fst (cfg : Platform F) (s : State) :
    (titleBranch cfg s).1 =
      if s.g_bUpdateSDLWindowIcon then
        { s with g_bUpdateSDLWindowTitle := false,
                 icon_surface := iconSurface cfg s.g_SDLWindowIcon }
      else { s with g_bUpdateSDLWindowTitle := false } := by
  simp only [titleBranch, applyIcon_fst, applyTitle_fst]

/-- The state one `sdlwindow_title` call leaves in an SDL session. -/
theorem sdlwindow_title_fst (cfg : Platform F) (s : State) (title icon : Option Nat)
    (hsession : cfg.isSDLSession = true) :
    (sdlwindow_title cfg s title icon).1 =
      { s with
        g_SDLWindowTitle := title,
        g_bUpdateSDLWindowTitle := s.g_bUpdateSDLWindowTitle || decide (s.g_SDLWindowTitle ≠ title),
        g_SDLWindowIcon := icon,
        g_bUpdateSDLWindowIcon := s.g_bUpdateSDLWindowIcon || decide (s.g_SDLWindowIcon ≠ icon) } := by
  unfold sdlwindow_title
  simp only [hsession, Bool.not_true, Bool.false_eq_true, if_false]
  split_ifs <;> (cases s; simp_all)

theorem sdlwindow_title_all_append (cfg : Platform F) (s : State) (rs : List TitleRequest)
    (last : TitleRequest) :
    sdlwindow_title_all cfg s (rs ++ [last]) =
      (sdlwindow_title cfg (sdlwindow_title_all cfg s rs) last.title last.icon).1 := by
  induction rs generalizing s with
  | nil => rfl
  | cons r rs ih => exact ih (sdlwindow_title cfg s r.title r.icon).1

/-- What a run of `sdlwindow_title` calls keeps: the windows and the grab
state; a set title flag stays set; and the stored title pointer only moves with
the flag set. -/
theorem sdlwindow_title_all_inv (cfg : Platform F) (hsession : cfg.isSDLSession = true)
    (rs : List TitleRequest) (s : State) :
    (sdlwindow_title_all cfg s rs).g_SDLWindows = s.g_SDLWindows ∧
    (sdlwindow_title_all cfg s rs).g_bGrabbed = s.g_bGrabbed ∧
    (s.g_bUpdateSDLWindowTitle = true →
      (sdlwindow_title_all cfg s rs).g_bUpdateSDLWindowTitle = true) ∧
    ((sdlwindow_title_all cfg s rs).g_SDLWindowTitle ≠ s.g_SDLWindowTitle →
      (sdlwindow_title_all cfg s rs).g_bUpdateSDLWindowTitle = true) := by
  induction rs generalizing s with
  | nil => simp [sdlwindow_title_all]
  | cons r rs ih =>
    obtain ⟨hw, hg, hd, ht⟩ := ih (sdlwindow_title cfg s r.title r.icon).1
    rw [sdlwindow_title_fst cfg s r.title r.icon hsession] at hw hg hd ht
    simp only [sdlwindow_title_all]
    rw [sdlwindow_title_fst cfg s r.title r.icon hsession]
    refine ⟨hw, hg, fun h => hd (by simp [h]), fun h => ?_⟩
    by_cases heq : s.g_SDLWindowTitle = r.title
    · exact ht (by simpa [heq] using h)
    · exact hd (by simp [heq])

theorem windowTitleText_eq (cfg : Platform F) (title : Option Nat) (grabbed : Bool) :
    windowTitleText cfg title grabbed =
      if grabbed then requestText cfg title ++ " (grabbed)" else requestText cfg title := by
  unfold windowTitleText requestText DEFAULT_TITLE
  cases title <;> rfl

/-- C5. In an SDL session, for every non-empty run of `sdlwindow_title` calls
made before the loop handles a title wake signal: every title the loop then
applies to a host window is the text of the last call (the string behind its
pointer, "gamescope" for a null pointer), followed by " (grabbed)" when grabbed
and alone when not, so no earlier title of the run is applied; and when a title
is pending, because one was pending before the run or the last call differs
from the title stored before it, that text is applied to each host window. -/
theorem title_requests_coalesce (cfg : Platform F) (s : State) (rs : List TitleRequest)
    (last : TitleRequest) (code : Int) (hsession : cfg.isSDLSession = true) :
    (∀ c ∈ (inputSDLThreadRun_body cfg (sdlwindow_title_all cfg s (rs ++ [last]))
          (.user .USER_EVENT_TITLE code)).2.filterMap Call.titleCall?,
      c.2 = if s.g_bGrabbed then requestText cfg last.title ++ " (grabbed)"
            else requestText cfg last.title) ∧
    ((s.g_bUpdateSDLWindowTitle = true ∨ s.g_SDLWindowTitle ≠ last.title) →
      (inputSDLThreadRun_body cfg (sdlwindow_title_all cfg s (rs ++ [last]))
          (.user .USER_EVENT_TITLE code)).2.filterMap Call.titleCall? =
        s.g_SDLWindows.map fun w =>
          (w.handle, if s.g_bGrabbed then requestText cfg last.title ++ " (grabbed)"
                     else requestText cfg last.title)) ∧
    (last.title = none → requestText cfg last.title = "gamescope") ∧
    (∀ p, last.title = some p → requestText cfg last.title = cfg.stringAt p) := by
  obtain ⟨hw, hg, hd, ht⟩ := sdlwindow_title_all_inv cfg hsession rs s
  have hcalls : (inputSDLThreadRun_body cfg (sdlwindow_title_all cfg s (rs ++ [last]))
        (.user .USER_EVENT_TITLE code)).2.filterMap Call.titleCall? =
      if (sdlwindow_title_all cfg s rs).g_bUpdateSDLWindowTitle
          || decide ((sdlwindow_title_all cfg s rs).g_SDLWindowTitle ≠ last.title) then
        s.g_SDLWindows.map fun w =>
          (w.handle, if s.g_bGrabbed then requestText cfg last.title ++ " (grabbed)"
                     else requestText cfg last.title)
      else [] := by
    rw [sdlwindow_title_all_append, sdlwindow_title_fst _ _ _ _ hsession]
    simp only [inputSDLThreadRun_body, titleBranch_titleCalls, tick, hw, hg,
      windowTitleText_eq]
  refine ⟨fun c hc => ?_, fun hpending => ?_, fun h => by rw [h]; rfl,
    fun p h => by rw [h]; rfl⟩
  · rw [hcalls] at hc
    split_ifs at hc
    all_goals first
      | (obtain ⟨w, _, rfl⟩ := List.mem_map.1 hc; simp_all)
      | cases hc
  · rw [hcalls, if_pos]
    rcases hpending with h | h
    · simp [hd h]
    · by_cases heq : (sdlwindow_title_all cfg s rs).g_SDLWindowTitle = last.title
      · have : (sdlwindow_title_all cfg s rs).g_SDLWindowTitle ≠ s.g_SDLWindowTitle := by
          rw [heq]; exact fun h2 => h h2.symm
        simp [ht this]
      · simp [heq]

/-- C5 at two requests, "Half-Life" (address 2) and then "Portal" (address 1):
from the sample state the one window gets "Portal", from the sample state with
the keyboard grabbed it gets "Portal (grabbed)", and "Half-Life" is set in
neither case. -/
theorem title_requests_coalesce_witness :
    samplePlatform.isSDLSession = true ∧
    (sampleState.g_bUpdateSDLWindowTitle = true ∨ sampleState.g_SDLWindowTitle ≠ some 1) ∧
    (inputSDLThreadRun_body samplePlatform
        (sdlwindow_title_all samplePlatform sampleState
          ([{ title := some 2, icon := none }] ++ [{ title := some 1, icon := none }]))
        (.user .USER_EVENT_TITLE 0)).2.filterMap Call.titleCall? =
      [(1, "Portal")] ∧
    (inputSDLThreadRun_body samplePlatform
        (sdlwindow_title_all samplePlatform { sampleState with g_bGrabbed := true }
          ([{ title := some 2, icon := none }] ++ [{ title := some 1, icon := none }]))
        (.user .USER_EVENT_TITLE 0)).2.filterMap Call.titleCall? =
      [(1, "Portal (grabbed)")] :=
  ⟨rfl, Or.inr (by decide),
    ((title_requests_coalesce samplePlatform sampleState [{ title := some 2, icon := none }]
      { title := some 1, icon := none } 0 rfl).2.1 (Or.inr (by decide))).trans rfl,
    ((title_requests_coalesce samplePlatform { sampleState with g_bGrabbed := true }
      [{ title := some 2, icon := none }]
      { title := some 1, icon := none } 0 rfl).2.1 (Or.inr (by decide))).trans rfl⟩

theorem keyUp_grab (cfg : Platform F) (s : State) (scancode mod rpt : Nat)
    (hkey : SDLScancodeToLinuxKey cfg.s_ScancodeTable scancode = KEY_G)
    (hsuper : superHeld mod = true) :
    inputSDLThreadRun_body cfg s (.keyUp scancode mod rpt) =
      ({ tick s with g_bGrabbed := !s.g_bGrabbed, g_bUpdateSDLWindowTitle := true },
        (s.g_SDLWindows.map fun w =>
          (Call.SDL_SetWindowKeyboardGrab w.handle (!s.g_bGrabbed) : Call F)) ++
        [Call.SDL_PushEvent UserEvents.USER_EVENT_TITLE none]) := by
  simp [inputSDLThreadRun_body, keyBranch, hsuper, hkey, shortcutSwitch, KEY_G, KEY_F, KEY_N,
    KEY_B, KEY_U, KEY_Y, KEY_I, KEY_O, KEY_S, tick]

/-- C6. From the ungrabbed state, the grab shortcut (key-up of G with the super
modifier held) sets grab=true, and the title applied at the next title wake
signal is the current window title, the default "gamescope" when none was
requested, followed by " (grabbed)"; the shortcut a second time sets grab=false,
and the title applied at the next wake signal is the current title alone. -/
theorem grab_shortcut_toggles_suffix (cfg : Platform F) (s : State)
    (scancode mod rpt : Nat) (code : Int)
    (hkey : SDLScancodeToLinuxKey cfg.s_ScancodeTable scancode = KEY_G)
    (hsuper : superHeld mod = true) (hungrabbed : s.g_bGrabbed = false) :
    (inputSDLThreadRun_events cfg s [.keyUp scancode mod rpt]).1.g_bGrabbed = true ∧
    (inputSDLThreadRun_body cfg
        (inputSDLThreadRun_events cfg s [.keyUp scancode mod rpt]).1
        (.user .USER_EVENT_TITLE code)).2.filterMap Call.titleCall? =
      (s.g_SDLWindows.map fun w => (w.handle, currentTitle cfg s ++ " (grabbed)")) ∧
    (inputSDLThreadRun_events cfg s
        [.keyUp scancode mod rpt, .user .USER_EVENT_TITLE code,
         .keyUp scancode mod rpt]).1.g_bGrabbed = false ∧
    (inputSDLThreadRun_body cfg
        (inputSDLThreadRun_events cfg s
          [.keyUp scancode mod rpt, .user .USER_EVENT_TITLE code,
           .keyUp scancode mod rpt]).1
        (.user .USER_EVENT_TITLE code)).2.filterMap Call.titleCall? =
      (s.g_SDLWindows.map fun w => (w.handle, currentTitle cfg s)) ∧
    (s.g_SDLWindowTitle = none → currentTitle cfg s = "gamescope") := by
  have htitle : ∀ t : State, inputSDLThreadRun_body cfg t (.user .USER_EVENT_TITLE code)
      = titleBranch cfg (tick t) := fun _ => rfl
  have hcur : ∀ g : Bool, windowTitleText cfg s.g_SDLWindowTitle g =
      if g then currentTitle cfg s ++ " (grabbed)" else currentTitle cfg s := by
    intro g
    unfold windowTitleText currentTitle DEFAULT_TITLE
    cases s.g_SDLWindowTitle <;> rfl
  refine ⟨?_, ?_, ?_, ?_, ?_⟩
  · simp [inputSDLThreadRun_events, keyUp_grab cfg _ _ _ _ hkey hsuper, hungrabbed]
  · simp only [inputSDLThreadRun_events, keyUp_grab cfg _ _ _ _ hkey hsuper, htitle,
      titleBranch_titleCalls, tick, hungrabbed, hcur]
    simp
  · simp only [inputSDLThreadRun_events, keyUp_grab cfg _ _ _ _ hkey hsuper, htitle,
      titleBranch_fst, tick, hungrabbed]
    split_ifs <;> simp
  · simp only [inputSDLThreadRun_events, keyUp_grab cfg _ _ _ _ hkey hsuper, htitle,
      titleBranch_fst, tick, hungrabbed]
    split_ifs <;>
      simp [keyUp_grab cfg _ _ _ _ hkey hsuper, titleBranch_titleCalls, tick, hcur]
  · intro h
    simp [currentTitle, h]

/-- C6 at the sample state (no title requested) and the G key of the sample
table: "gamescope (grabbed)", then "gamescope". -/
theorem grab_shortcut_toggles_suffix_witness :
    SDLScancodeToLinuxKey samplePlatform.s_ScancodeTable 10 = KEY_G ∧
    superHeld 1024 = true ∧ sampleState.g_bGrabbed = false ∧
    (inputSDLThreadRun_body samplePlatform
        (inputSDLThreadRun_events samplePlatform sampleState [.keyUp 10 1024 0]).1
        (.user .USER_EVENT_TITLE 0)).2.filterMap Call.titleCall? =
      [(1, "gamescope (grabbed)")] ∧
    (inputSDLThreadRun_body samplePlatform
        (inputSDLThreadRun_events samplePlatform sampleState
          [.keyUp 10 1024 0, .user .USER_EVENT_TITLE 0, .keyUp 10 1024 0]).1
        (.user .USER_EVENT_TITLE 0)).2.filterMap Call.titleCall? =
      [(1, "gamescope")] :=
  ⟨by decide, by decide, rfl,
    ((grab_shortcut_toggles_suffix samplePlatform sampleState 10 1024 0 0
      (by decide) (by decide) rfl).2.1).trans rfl,
    ((grab_shortcut_toggles_suffix samplePlatform sampleState 10 1024 0 0
      (by decide) (by decide) rfl).2.2.2.1).trans rfl⟩

/-- The title slot is cleaned by its wake signal: the flag is false afterwards,
and a second wake signal sets no title. -/
theorem title_flag_cleared (cfg : Platform F) (s : State) (code code2 : Int) :
    (inputSDLThreadRun_body cfg s (.user .USER_EVENT_TITLE code)).1.g_bUpdateSDLWindowTitle
      = false ∧
    (inputSDLThreadRun_body cfg
        (inputSDLThreadRun_body cfg s (.user .USER_EVENT_TITLE code)).1
        (.user .USER_EVENT_TITLE code2)).2.filterMap Call.titleCall? = [] := by
  have htitle : ∀ (t : State) (c : Int), inputSDLThreadRun_body cfg t (.user .USER_EVENT_TITLE c)
      = titleBranch cfg (tick t) := fun _ _ => rfl
  have h1 : (titleBranch cfg (tick s)).1.g_bUpdateSDLWindowTitle = false := by
    rw [titleBranch_fst]; split_ifs <;> rfl
  refine ⟨by rw [htitle]; exact h1, ?_⟩
  rw [htitle, htitle, titleBranch_titleCalls]
  have h2 : (tick (titleBranch cfg (tick s)).1).g_bUpdateSDLWindowTitle = false := h1
  simp [h2]

/-- The cursor slot is cleaned by its wake signal: the flag is false afterwards,
and a second wake signal sets no cursor. -/
theorem cursor_flag_cleared (cfg : Platform F) (s : State) (code code2 : Int) :
    (inputSDLThreadRun_body cfg s (.user .USER_EVENT_CURSOR code)).1.g_bUpdateSDLCursor
      = false ∧
    (inputSDLThreadRun_body cfg
        (inputSDLThreadRun_body cfg s (.user .USER_EVENT_CURSOR code)).1
        (.user .USER_EVENT_CURSOR code2)).2 = [] := by
  have hcursor : ∀ (t : State) (c : Int), inputSDLThreadRun_body cfg t (.user .USER_EVENT_CURSOR c)
      = cursorBranch (tick t) := fun _ _ => rfl
  have h1 : (cursorBranch (F := F) (tick s)).1.g_bUpdateSDLCursor = false := by
    unfold cursorBranch
    cases h : (tick s).g_bUpdateSDLCursor <;> simp [h]
  refine ⟨by rw [hcursor]; exact h1, ?_⟩
  rw [hcursor, hcursor]
  have h2 : (tick (cursorBranch (F := F) (tick s)).1).g_bUpdateSDLCursor = false := h1
  unfold cursorBranch at h2 ⊢
  simp only [h2]
  simp

/-- The icon slot is not cleaned by its wake signal: the handler leaves
`g_bUpdateSDLWindowIcon` as it found it, so once the flag is set every later
wake signal sets the icon of each window again. -/
theorem icon_flag_kept (cfg : Platform F) (s : State) (code code2 : Int) :
    (inputSDLThreadRun_body cfg s (.user .USER_EVENT_TITLE code)).1.g_bUpdateSDLWindowIcon
      = s.g_bUpdateSDLWindowIcon ∧
    (inputSDLThreadRun_body cfg
        (inputSDLThreadRun_body cfg s (.user .USER_EVENT_TITLE code)).1
        (.user .USER_EVENT_TITLE code2)).2.filterMap Call.iconCall? =
      if s.g_bUpdateSDLWindowIcon then
        s.g_SDLWindows.map fun w => (w.handle, iconSurface cfg s.g_SDLWindowIcon)
      else [] := by
  have htitle : ∀ (t : State) (c : Int), inputSDLThreadRun_body cfg t (.user .USER_EVENT_TITLE c)
      = titleBranch cfg (tick t) := fun _ _ => rfl
  rw [htitle, htitle, titleBranch_fst]
  cases hi : s.g_bUpdateSDLWindowIcon
  · have h1 : (tick s).g_bUpdateSDLWindowIcon = false := hi
    simp [h1, titleBranch, applyTitle, applyIcon, tick, hi]
  · have h1 : (tick s).g_bUpdateSDLWindowIcon = true := hi
    simp only [h1, if_true]
    refine ⟨trivial, ?_⟩
    simp only [titleBranch, applyTitle, applyIcon, tick, hi, if_true, Bool.false_eq_true,
      if_false, List.nil_append, List.filterMap_append, filterMap_iconCall_map_icon]
    cases iconSurface cfg s.g_SDLWindowIcon <;> simp [List.filterMap, Call.iconCall?]

/-- C10, the icon slot: after one request and the wake signal that applies the
icon, `g_bUpdateSDLWindowIcon` is still true, and a second wake signal with no
request in between frees the surface and sets the icon of the window again; the
title, whose flag was cleared, is not set again. -/
theorem icon_reapplied_without_request :
    iconRequested.g_bUpdateSDLWindowIcon = true ∧
    (inputSDLThreadRun_body samplePlatform iconRequested
        (.user .USER_EVENT_TITLE 0)).2.filterMap Call.iconCall? =
      [(1, some { pixels := some 7, first := 2, width := 1, height := 1, pitch := 4 })] ∧
    (inputSDLThreadRun_body samplePlatform iconRequested
        (.user .USER_EVENT_TITLE 0)).1.g_bUpdateSDLWindowIcon = true ∧
    (inputSDLThreadRun_body samplePlatform
        (inputSDLThreadRun_body samplePlatform iconRequested (.user .USER_EVENT_TITLE 0)).1
        (.user .USER_EVENT_TITLE 0)).2.filterMap Call.iconCall? =
      [(1, some { pixels := some 7, first := 2, width := 1, height := 1, pitch := 4 })] ∧
    (inputSDLThreadRun_body samplePlatform
        (inputSDLThreadRun_body samplePlatform iconRequested (.user .USER_EVENT_TITLE 0)).1
        (.user .USER_EVENT_TITLE 0)).2.filterMap Call.titleCall? = [] := by
  decide

end Updates

/-! ## Output geometry -/

section Geometry

variable {F : Type}

theorem wrap32_eq (z : Int) (h1 : -2147483648 ≤ z) (h2 : z < 2147483648) : wrap32 z = z := by
  unfold wrap32; omega

theorem loop_lowest_x (b : Bool) (ws : List Window) (l : ResolutionLocals) (i : Nat) :
    (updateOutputResolution_loop b l i ws).lowest_x =
      ws.foldl (fun m v => min m v.x) l.lowest_x := by
  induction ws generalizing l i with
  | nil => rfl
  | cons d ws ih =>
    rw [updateOutputResolution_loop, ih, List.foldl_cons]
    congr 1
    show (if d.x < l.lowest_x then d.x else l.lowest_x) = min l.lowest_x d.x
    split_ifs <;> omega

theorem loop_lowest_y (b : Bool) (ws : List Window) (l : ResolutionLocals) (i : Nat) :
    (updateOutputResolution_loop b l i ws).lowest_y =
      ws.foldl (fun m v => min m v.y) l.lowest_y := by
  induction ws generalizing l i with
  | nil => rfl
  | cons d ws ih =>
    rw [updateOutputResolution_loop, ih, List.foldl_cons]
    congr 1
    show (if d.y < l.lowest_y then d.y else l.lowest_y) = min l.lowest_y d.y
    split_ifs <;> omega

theorem loop_highest_x (b : Bool) (ws : List Window) (l : ResolutionLocals) (i : Nat)
    (h : ∀ w ∈ ws, |w.x + w.width| < 2 ^ 30) :
    (updateOutputResolution_loop b l i ws).highest_x =
      ws.foldl (fun m v => max m (v.x + v.width)) l.highest_x := by
  induction ws generalizing l i with
  | nil => rfl
  | cons d ws ih =>
    rw [updateOutputResolution_loop, ih _ _ (fun w hw => h w (List.mem_cons_of_mem _ hw)),
      List.foldl_cons]
    congr 1
    have hd := abs_lt.1 (h d (List.mem_cons_self _ _))
    have hwrap : wrap32 (d.x + d.width) = d.x + d.width :=
      wrap32_eq _ (by omega) (by omega)
    show (if wrap32 (d.x + d.width) > l.highest_x then wrap32 (d.x + d.width)
      else l.highest_x) = max l.highest_x (d.x + d.width)
    rw [hwrap]
    split_ifs <;> omega

theorem loop_highest_y (b : Bool) (ws : List Window) (l : ResolutionLocals) (i : Nat)
    (h : ∀ w ∈ ws, |w.y + w.height| < 2 ^ 30) :
    (updateOutputResolution_loop b l i ws).highest_y =
      ws.foldl (fun m v => max m (v.y + v.height)) l.highest_y := by
  induction ws generalizing l i with
  | nil => rfl
  | cons d ws ih =>
    rw [updateOutputResolution_loop, ih _ _ (fun w hw => h w (List.mem_cons_of_mem _ hw)),
      List.foldl_cons]
    congr 1
    have hd := abs_lt.1 (h d (List.mem_cons_self _ _))
    have hwrap : wrap32 (d.y + d.height) = d.y + d.height :=
      wrap32_eq _ (by omega) (by omega)
    show (if wrap32 (d.y + d.height) > l.highest_y then wrap32 (d.y + d.height)
      else l.highest_y) = max l.highest_y (d.y + d.height)
    rw [hwrap]
    split_ifs <;> omega

theorem foldl_min_bounds (f : Window → Int) (ws : List Window) (m : Int)
    (hm : |m| < 2 ^ 30) (h : ∀ w ∈ ws, |f w| < 2 ^ 30) :
    |ws.foldl (fun m v => min m (f v)) m| < 2 ^ 30 := by
  induction ws generalizing m with
  | nil => exact hm
  | cons d ws ih =>
    rw [List.foldl_cons]
    apply ih _ _ (fun w hw => h w (List.mem_cons_of_mem _ hw))
    have hd := abs_lt.1 (h d (List.mem_cons_self _ _))
    have hm2 := abs_lt.1 hm
    rw [abs_lt]
    constructor <;> omega

theorem foldl_max_bounds (f : Window → Int) (ws : List Window) (m : Int)
    (hm : |m| < 2 ^ 30) (h : ∀ w ∈ ws, |f w| < 2 ^ 30) :
    |ws.foldl (fun m v => max m (f v)) m| < 2 ^ 30 := by
  induction ws generalizing m with
  | nil => exact hm
  | cons d ws ih =>
    rw [List.foldl_cons]
    apply ih _ _ (fun w hw => h w (List.mem_cons_of_mem _ hw))
    have hd := abs_lt.1 (h d (List.mem_cons_self _ _))
    have hm2 := abs_lt.1 hm
    rw [abs_lt]
    constructor <;> omega

/-- What `updateOutputResolution` stores as the size in points, for at least
one window and coordinates below 2^30 in absolute value. -/
theorem updateOutputResolution_pts (b : Bool) (s : State) (hne : s.g_SDLWindows ≠ [])
    (hrange : ∀ w ∈ s.g_SDLWindows,
      |w.x| < 2 ^ 30 ∧ |w.y| < 2 ^ 30 ∧ |w.x + w.width| < 2 ^ 30 ∧ |w.y + w.height| < 2 ^ 30) :
    (updateOutputResolution b s).g_nOutputWidthPts = boundingWidthPts s.g_SDLWindows ∧
    (updateOutputResolution b s).g_nOutputHeightPts = boundingHeightPts s.g_SDLWindows := by
  obtain ⟨d, ws, hws⟩ := List.exists_cons_of_ne_nil hne
  rw [hws] at hrange
  have hd := hrange d (List.mem_cons_self _ _)
  have hrest : ∀ w ∈ ws, |w.x| < 2 ^ 30 ∧ |w.y| < 2 ^ 30 ∧ |w.x + w.width| < 2 ^ 30 ∧
      |w.y + w.height| < 2 ^ 30 := fun w hw => hrange w (List.mem_cons_of_mem _ hw)
  have hall1 : ∀ w ∈ d :: ws, |w.x + w.width| < 2 ^ 30 := fun w hw => (hrange w hw).2.2.1
  have hall2 : ∀ w ∈ d :: ws, |w.y + w.height| < 2 ^ 30 := fun w hw => (hrange w hw).2.2.2
  have hW : (updateOutputResolution b s).g_nOutputWidthPts =
      wrap32 ((updateOutputResolution_loop b
        { lowest_x := INT32_MAX, lowest_y := INT32_MAX,
          highest_x := -INT32_MAX, highest_y := -INT32_MAX,
          highest_x_px := -INT32_MAX, highest_y_px := -INT32_MAX,
          g_outputs := s.g_outputs } 0 s.g_SDLWindows).highest_x -
        (updateOutputResolution_loop b
        { lowest_x := INT32_MAX, lowest_y := INT32_MAX,
          highest_x := -INT32_MAX, highest_y := -INT32_MAX,
          highest_x_px := -INT32_MAX, highest_y_px := -INT32_MAX,
          g_outputs := s.g_outputs } 0 s.g_SDLWindows).lowest_x) := by
    unfold updateOutputResolution
    cases b <;> rfl
  have hH : (updateOutputResolution b s).g_nOutputHeightPts =
      wrap32 ((updateOutputResolution_loop b
        { lowest_x := INT32_MAX, lowest_y := INT32_MAX,
          highest_x := -INT32_MAX, highest_y := -INT32_MAX,
          highest_x_px := -INT32_MAX, highest_y_px := -INT32_MAX,
          g_outputs := s.g_outputs } 0 s.g_SDLWindows).highest_y -
        (updateOutputResolution_loop b
        { lowest_x := INT32_MAX, lowest_y := INT32_MAX,
          highest_x := -INT32_MAX, highest_y := -INT32_MAX,
          highest_x_px := -INT32_MAX, highest_y_px := -INT32_MAX,
          g_outputs := s.g_outputs } 0 s.g_SDLWindows).lowest_y) := by
    unfold updateOutputResolution
    cases b <;> rfl
  rw [hW, hH, hws, loop_lowest_x, loop_lowest_y, loop_highest_x _ _ _ _ hall1,
    loop_highest_y _ _ _ _ hall2]
  simp only [List.foldl_cons, boundingWidthPts, boundingHeightPts, minOver, maxOver]
  have e1 : min INT32_MAX d.x = d.x := by
    have := abs_lt.1 hd.1; unfold INT32_MAX; omega
  have e2 : min INT32_MAX d.y = d.y := by
    have := abs_lt.1 hd.2.1; unfold INT32_MAX; omega
  have e3 : max (-INT32_MAX) (d.x + d.width) = d.x + d.width := by
    have := abs_lt.1 hd.2.2.1; unfold INT32_MAX; omega
  have e4 : max (-INT32_MAX) (d.y + d.height) = d.y + d.height := by
    have := abs_lt.1 hd.2.2.2; unfold INT32_MAX; omega
  rw [e1, e2, e3, e4]
  have b1 := abs_lt.1 (foldl_min_bounds (fun w => w.x) ws d.x hd.1 (fun w hw => (hrest w hw).1))
  have b2 := abs_lt.1 (foldl_min_bounds (fun w => w.y) ws d.y hd.2.1
    (fun w hw => (hrest w hw).2.1))
  have b3 := abs_lt.1 (foldl_max_bounds (fun w => w.x + w.width) ws _ hd.2.2.1
    (fun w hw => (hrest w hw).2.2.1))
  have b4 := abs_lt.1 (foldl_max_bounds (fun w => w.y + w.height) ws _ hd.2.2.2
    (fun w hw => (hrest w hw).2.2.2))
  beta_reduce at b1 b2 b3 b4
  constructor <;> apply wrap32_eq <;> omega

/-- C9 as stated fails for a moved and for a shown event: in
`movedWindowState` the windows span 4420 points, and after either event the
stored width is still the 3840 points of before the move. -/
theorem moved_shown_keep_geometry_counterexample :
    boundingWidthPts movedWindowState.g_SDLWindows = 4420 ∧
    (inputSDLThreadRun_body samplePlatform movedWindowState
        (.window .MOVED)).1.g_nOutputWidthPts = 3840 ∧
    (inputSDLThreadRun_body samplePlatform movedWindowState
        (.window .SHOWN)).1.g_nOutputWidthPts = 3840 ∧
    (inputSDLThreadRun_body samplePlatform movedWindowState
        (.window .MOVED)).1.g_nOutputWidthPts ≠ boundingWidthPts movedWindowState.g_SDLWindows ∧
    (inputSDLThreadRun_body samplePlatform movedWindowState
        (.window .SHOWN)).1.g_nOutputWidthPts ≠ boundingWidthPts movedWindowState.g_SDLWindows := by
  decide

/-- C9, amended. After the loop processes a window resized event, the stored
output geometry has been recomputed over all host windows: the width and height
in points are (max of x + width) - (min of x) and (max of y + height) -
(min of y) over the windows as they are then (for at least one window and
coordinates below 2^30 in absolute value, where the `int` arithmetic is exact),
and the next coordinate conversion divides by them. A moved or a shown event
recomputes the refresh rate only and leaves the stored width and height in
points as they were. -/
theorem resize_recomputes_geometry (cfg : Platform F) (s : State)
    (hne : s.g_SDLWindows ≠ [])
    (hrange : ∀ w ∈ s.g_SDLWindows,
      |w.x| < 2 ^ 30 ∧ |w.y| < 2 ^ 30 ∧ |w.x + w.width| < 2 ^ 30 ∧ |w.y + w.height| < 2 ^ 30) :
    (inputSDLThreadRun_body cfg s (.window .SIZE_CHANGED)).1.g_nOutputWidthPts =
      boundingWidthPts s.g_SDLWindows ∧
    (inputSDLThreadRun_body cfg s (.window .SIZE_CHANGED)).1.g_nOutputHeightPts =
      boundingHeightPts s.g_SDLWindows ∧
    (s.bRelativeMouse = false → ∀ x y xrel yrel : Int,
      (inputSDLThreadRun_body cfg
          (inputSDLThreadRun_body cfg s (.window .SIZE_CHANGED)).1
          (.mouseMotion x y xrel yrel)).2.filterMap Call.touchMotion? =
        [(cfg.floatDiv (cfg.floatOfInt x) (cfg.floatOfInt (boundingWidthPts s.g_SDLWindows)),
          cfg.floatDiv (cfg.floatOfInt y) (cfg.floatOfInt (boundingHeightPts s.g_SDLWindows)),
          0)]) ∧
    inputSDLThreadRun_body cfg s (.window .MOVED) = (updateOutputRefresh (tick s), []) ∧
    inputSDLThreadRun_body cfg s (.window .SHOWN) = (updateOutputRefresh (tick s), []) ∧
    (updateOutputRefresh (tick s)).g_nOutputWidthPts = s.g_nOutputWidthPts ∧
    (updateOutputRefresh (tick s)).g_nOutputHeightPts = s.g_nOutputHeightPts := by
  have hW : (inputSDLThreadRun_body cfg s (.window .SIZE_CHANGED)).1.g_nOutputWidthPts =
      boundingWidthPts s.g_SDLWindows :=
    (updateOutputResolution_pts cfg.sdlAtLeast_2_26 (tick s) hne hrange).1
  have hH : (inputSDLThreadRun_body cfg s (.window .SIZE_CHANGED)).1.g_nOutputHeightPts =
      boundingHeightPts s.g_SDLWindows :=
    (updateOutputResolution_pts cfg.sdlAtLeast_2_26 (tick s) hne hrange).2
  have hR : (inputSDLThreadRun_body cfg s (.window .SIZE_CHANGED)).1.bRelativeMouse =
      s.bRelativeMouse := by
    show (updateOutputRefresh (updateOutputResolution cfg.sdlAtLeast_2_26 (tick s))).bRelativeMouse
      = s.bRelativeMouse
    unfold updateOutputRefresh updateOutputResolution
    cases cfg.sdlAtLeast_2_26 <;> rfl
  refine ⟨hW, hH, ?_, rfl, rfl, rfl, rfl⟩
  intro habs x y xrel yrel
  rw [mouseMotion_absolute cfg _ x y xrel yrel (hR.trans habs), hW, hH]
  rfl

/-- C9 amended, at `movedWindowState`: a resized event stores 4420 by 1080. -/
theorem resize_recomputes_geometry_witness :
    movedWindowState.g_SDLWindows ≠ [] ∧
    (∀ w ∈ movedWindowState.g_SDLWindows,
      |w.x| < 2 ^ 30 ∧ |w.y| < 2 ^ 30 ∧ |w.x + w.width| < 2 ^ 30 ∧ |w.y + w.height| < 2 ^ 30) ∧
    (inputSDLThreadRun_body samplePlatform movedWindowState
        (.window .SIZE_CHANGED)).1.g_nOutputWidthPts = 4420 ∧
    (inputSDLThreadRun_body samplePlatform movedWindowState
        (.window .SIZE_CHANGED)).1.g_nOutputHeightPts = 1080 :=
  ⟨by decide, by decide,
    ((resize_recomputes_geometry samplePlatform movedWindowState
      (by decide) (by decide)).1).trans (by decide),
    ((resize_recomputes_geometry samplePlatform movedWindowState
      (by decide) (by decide)).2.1).trans (by decide)⟩

end Geometry

/-! ## Absolute pointer motion -/

section AbsoluteMotion

variable {F : Type}

theorem log_eq_of_bounds (q : ℚ) (e : ℤ) (h1 : (2 : ℚ) ^ e ≤ q) (h2 : q < (2 : ℚ) ^ (e + 1)) :
    Int.log 2 q = e := by
  have hq : 0 < q := lt_of_lt_of_le (zpow_pos (by norm_num) e) h1
  apply le_antisymm
  · have := (Int.lt_zpow_iff_log_lt (b := 2) (by norm_num) hq (x := e + 1)).1 (by simpa using h2)
    omega
  · exact (Int.zpow_le_iff_le_log (b := 2) (by norm_num) hq).1 (by simpa using h1)

theorem roundHalfEven_intCast (m : ℤ) : roundHalfEven (m : ℚ) = m := by
  simp [roundHalfEven]

/-- A magnitude that has 24 significant bits in its binade is its own
rounding. -/
theorem round_exact (negative : Bool) (q : ℚ) (e m : ℤ)
    (hm : q = m * (2 : ℚ) ^ (e - 23)) (h1 : (2 : ℚ) ^ e ≤ q) (h2 : q < (2 : ℚ) ^ (e + 1))
    (he : -126 ≤ e) (hmax : q < 2 ^ 128) :
    Binary32.round negative q = .finite negative q := by
  have hq : 0 < q := lt_of_lt_of_le (zpow_pos (by norm_num) e) h1
  have hb : binade q = e := by
    unfold binade
    rw [log_eq_of_bounds q e h1 h2]
    omega
  have hu : (2 : ℚ) ^ (e - 23) ≠ 0 := (zpow_pos (by norm_num) _).ne'
  have hdiv : q / (2 : ℚ) ^ (e - 23) = m := by
    rw [hm]; field_simp
  unfold Binary32.round
  rw [if_neg hq.ne']
  simp only [hb, hdiv, roundHalfEven_intCast, ← hm, hmax, if_true]

theorem ofInt_540 : Binary32.ofInt 540 = .finite false 540 := by
  have h := round_exact false 540 9 (540 * 2 ^ 14) (by norm_num) (by norm_num) (by norm_num)
    (by norm_num) (by norm_num)
  have habs : |((540 : ℤ) : ℚ)| = 540 := by norm_num
  unfold Binary32.ofInt
  rw [habs]
  simpa using h

theorem ofInt_neg_540 : Binary32.ofInt (-540) = .finite true 540 := by
  have h := round_exact true 540 9 (540 * 2 ^ 14) (by norm_num) (by norm_num) (by norm_num)
    (by norm_num) (by norm_num)
  have habs : |((-540 : ℤ) : ℚ)| = 540 := by norm_num
  unfold Binary32.ofInt
  rw [habs]
  simpa using h

theorem ofInt_960 : Binary32.ofInt 960 = .finite false 960 := by
  have h := round_exact false 960 9 (960 * 2 ^ 14) (by norm_num) (by norm_num) (by norm_num)
    (by norm_num) (by norm_num)
  have habs : |((960 : ℤ) : ℚ)| = 960 := by norm_num
  unfold Binary32.ofInt
  rw [habs]
  simpa using h

theorem ofInt_1080 : Binary32.ofInt 1080 = .finite false 1080 := by
  have h := round_exact false 1080 10 (1080 * 2 ^ 13) (by norm_num) (by norm_num) (by norm_num)
    (by norm_num) (by norm_num)
  have habs : |((1080 : ℤ) : ℚ)| = 1080 := by norm_num
  unfold Binary32.ofInt
  rw [habs]
  simpa using h

theorem ofInt_1920 : Binary32.ofInt 1920 = .finite false 1920 := by
  have h := round_exact false 1920 10 (1920 * 2 ^ 13) (by norm_num) (by norm_num) (by norm_num)
    (by norm_num) (by norm_num)
  have habs : |((1920 : ℤ) : ℚ)| = 1920 := by norm_num
  unfold Binary32.ofInt
  rw [habs]
  simpa using h

theorem ofInt_3840 : Binary32.ofInt 3840 = .finite false 3840 := by
  have h := round_exact false 3840 11 (3840 * 2 ^ 12) (by norm_num) (by norm_num) (by norm_num)
    (by norm_num) (by norm_num)
  have habs : |((3840 : ℤ) : ℚ)| = 3840 := by norm_num
  unfold Binary32.ofInt
  rw [habs]
  simpa using h

theorem round_half (negative : Bool) :
    Binary32.round negative (1 / 2) = .finite negative (1 / 2) :=
  round_exact negative (1 / 2) (-1) (2 ^ 23) (by norm_num) (by norm_num) (by norm_num)
    (by norm_num) (by norm_num)

theorem round_two (negative : Bool) : Binary32.round negative 2 = .finite negative 2 :=
  round_exact negative 2 1 (2 ^ 23) (by norm_num) (by norm_num) (by norm_num)
    (by norm_num) (by norm_num)

/-- In binary32, 960 / 1920 and 540 / 1080 are 0.5. -/
theorem binary32_half :
    Binary32.div (Binary32.ofInt 960) (Binary32.ofInt 1920) = .finite false (1 / 2) ∧
    Binary32.div (Binary32.ofInt 540) (Binary32.ofInt 1080) = .finite false (1 / 2) := by
  rw [ofInt_960, ofInt_1920, ofInt_540, ofInt_1080]
  have e1 : ((960 : ℚ) / 1920) = 1 / 2 := by norm_num
  have e2 : ((540 : ℚ) / 1080) = 1 / 2 := by norm_num
  have n1 : ¬ ((1920 : ℚ) = 0) := by norm_num
  have n2 : ¬ ((1080 : ℚ) = 0) := by norm_num
  constructor
  · rw [Binary32.div, if_neg n1, e1]; exact round_half _
  · rw [Binary32.div, if_neg n2, e2]; exact round_half _

/-- In binary32, 3840 / 1920 is 2 and -540 / 1080 is -0.5. -/
theorem binary32_outside :
    Binary32.div (Binary32.ofInt 3840) (Binary32.ofInt 1920) = .finite false 2 ∧
    Binary32.div (Binary32.ofInt (-540)) (Binary32.ofInt 1080) = .finite true (1 / 2) := by
  rw [ofInt_3840, ofInt_1920, ofInt_neg_540, ofInt_1080]
  have e1 : ((3840 : ℚ) / 1920) = 2 := by norm_num
  have e2 : ((540 : ℚ) / 1080) = 1 / 2 := by norm_num
  have n1 : ¬ ((1920 : ℚ) = 0) := by norm_num
  have n2 : ¬ ((1080 : ℚ) = 0) := by norm_num
  constructor
  · rw [Binary32.div, if_neg n1, e1]; exact round_two _
  · rw [Binary32.div, if_neg n2, e2]; exact round_half _

/-- C7. With relative-mouse mode inactive, for every pointer-motion event at the
host position (x, y) the loop makes exactly one touch-motion call to the
compositor input server, and no relative-motion call, with u the `float`
quotient of x by the stored width in points and v that of y by the stored
height in points, passed on as computed, with no clamping; and in binary32
arithmetic, for a stored geometry of 1920 by 1080 points, the point (960, 540)
gives (0.5, 0.5). -/
theorem absolute_motion_normalized (cfg : Platform F) (s : State) (x y xrel yrel : Int)
    (habs : s.bRelativeMouse = false) :
    inputSDLThreadRun_body cfg s (.mouseMotion x y xrel yrel) =
      (tick s, [Call.wlserver_lock,
        Call.wlserver_touchmotion
          (cfg.floatDiv (cfg.floatOfInt x) (cfg.floatOfInt s.g_nOutputWidthPts))
          (cfg.floatDiv (cfg.floatOfInt y) (cfg.floatOfInt s.g_nOutputHeightPts))
          0 (tick s).fake_timestamp,
        Call.wlserver_unlock]) ∧
    (inputSDLThreadRun_body cfg s (.mouseMotion x y xrel yrel)).2.filterMap Call.touchMotion? =
      [(cfg.floatDiv (cfg.floatOfInt x) (cfg.floatOfInt s.g_nOutputWidthPts),
        cfg.floatDiv (cfg.floatOfInt y) (cfg.floatOfInt s.g_nOutputHeightPts), 0)] ∧
    (inputSDLThreadRun_body cfg s (.mouseMotion x y xrel yrel)).2.filterMap
      Call.relativeMotion? = [] ∧
    (∀ (c : Platform Binary32) (t : State),
      c.floatOfInt = Binary32.ofInt → c.floatDiv = Binary32.div →
      t.bRelativeMouse = false → t.g_nOutputWidthPts = 1920 → t.g_nOutputHeightPts = 1080 →
      (inputSDLThreadRun_body c t (.mouseMotion 960 540 xrel yrel)).2.filterMap
          Call.touchMotion? =
        [(Binary32.finite false (1 / 2), Binary32.finite false (1 / 2), 0)]) := by
  refine ⟨mouseMotion_absolute cfg s x y xrel yrel habs, ?_, ?_, ?_⟩
  · rw [mouseMotion_absolute cfg s x y xrel yrel habs]; rfl
  · rw [mouseMotion_absolute cfg s x y xrel yrel habs]; rfl
  · intro c t h1 h2 ht hw hh
    rw [mouseMotion_absolute c t 960 540 xrel yrel ht, h1, h2, hw, hh]
    show [(Binary32.div (Binary32.ofInt 960) (Binary32.ofInt 1920),
      Binary32.div (Binary32.ofInt 540) (Binary32.ofInt 1080), (0 : Int))] = _
    rw [binary32_half.1, binary32_half.2]

/-- C7 at the sample state, whose stored geometry is 1920 by 1080 points: the
point (960, 540) gives (0.5, 0.5). -/
theorem absolute_motion_normalized_witness :
    sampleState.bRelativeMouse = false ∧
    (inputSDLThreadRun_body samplePlatform sampleState
        (.mouseMotion 960 540 0 0)).2.filterMap Call.touchMotion? =
      [(Binary32.finite false (1 / 2), Binary32.finite false (1 / 2), 0)] :=
  ⟨rfl, (absolute_motion_normalized samplePlatform sampleState 960 540 0 0 rfl).2.2.2
    samplePlatform sampleState rfl rfl rfl rfl rfl⟩

/-- No clamping: at the sample state the point (3840, -540), outside the
1920 by 1080 box, gives (2, -0.5). -/
theorem absolute_motion_outside_box :
    (inputSDLThreadRun_body samplePlatform sampleState
        (.mouseMotion 3840 (-540) 0 0)).2.filterMap Call.touchMotion? =
      [(Binary32.finite false 2, Binary32.finite true (1 / 2), 0)] := by
  rw [mouseMotion_absolute samplePlatform sampleState 3840 (-540) 0 0 rfl]
  show [(Binary32.div (Binary32.ofInt 3840) (Binary32.ofInt 1920),
    Binary32.div (Binary32.ofInt (-540)) (Binary32.ofInt 1080), (0 : Int))] = _
  rw [binary32_outside.1, binary32_outside.2]

end AbsoluteMotion

end Gamescope
